import Mathlib

/-!
Verification development for the CMPRO2 web-page-to-Elementor conversion
pipeline.  The JavaScript sources are shallowly embedded as executable Lean
definitions:

* `server/core/elementor-converter.js` — structural classifier, widget
  builder, style translator, asset matcher, kit export;
* the storage manager (`storage-manager.js`) — session store with lock
  protected metadata, TTL expiry and lock-respecting deletion;
* `server/core/asset-manager/css-downloader.js` — CSS download with
  recursive, depth-bounded `@import` inlining.

JavaScript strings are Lean `String`s; `undefined`/absent values are
`Option`; JS objects holding settings are association lists over a small
JSON-like value type; `Date.now()` is an explicit `now : Nat` argument; the
filesystem is an explicit store value threaded through the storage
operations.  External primitives (the network, the zip compressor) are
function parameters.
-/

set_option linter.unusedVariables false

namespace CMPRO

/-! ## Small JavaScript-style string helpers -/

/-- Character class `\w` of JavaScript regexes: `[A-Za-z0-9_]`
(the sources only ever match ASCII class names). -/
def isWordChar (c : Char) : Bool :=
  (('a' ≤ c && c ≤ 'z') || ('A' ≤ c && c ≤ 'Z') || ('0' ≤ c && c ≤ '9') || c = '_')

/-- ASCII decimal digit test. -/
def isDigitCh (c : Char) : Bool := '0' ≤ c && c ≤ '9'

/-- Does the pattern `pat` occur in `l` starting at index `i`? -/
def subAt (l pat : List Char) (i : Nat) : Bool :=
  pat.enum.all fun (j, c) => l.getD (i + j) ' ' = c && i + j < l.length

/-- JavaScript `String.prototype.includes`. -/
def containsSub (s pat : String) : Bool :=
  (List.range (s.data.length + 1)).any fun i => subAt s.data pat.data i

/-- Index of the first occurrence of `pat` in `l`, if any. -/
def idxOfSub (l pat : List Char) : Option Nat :=
  (List.range (l.length + 1)).find? fun i => subAt l pat i

/-- JavaScript `String.prototype.replace` with a plain string pattern:
replace only the first occurrence. -/
def replaceFirstStr (s pat repl : String) : String :=
  match idxOfSub s.data pat.data with
  | none => s
  | some i => ⟨s.data.take i ++ repl.data ++ s.data.drop (i + pat.data.length)⟩

/-- Scanner for `countOcc`: structural recursion on a character budget
that always covers the list (each step consumes at least one character). -/
def countOccGo (pat : List Char) : Nat → List Char → Nat
  | 0, _ => 0
  | _ + 1, [] => 0
  | fuel + 1, c :: rest =>
    if pat ≠ [] ∧ subAt (c :: rest) pat 0 then
      1 + countOccGo pat fuel ((c :: rest).drop pat.length)
    else countOccGo pat fuel rest

/-- Number of (left-to-right, non-overlapping) occurrences of `pat`,
advancing past each match the way a global regex scan would. -/
def countOcc (l pat : List Char) : Nat := countOccGo pat l.length l

/-- Occurrence count on strings. -/
def countOccStr (s pat : String) : Nat := countOcc s.data pat.data

/-- `s.toLowerCase()` (character-wise; the sources only lowercase ASCII). -/
def toLowerStr (s : String) : String := ⟨s.data.map Char.toLower⟩

/-- `s.trim()`. -/
def trimStr (s : String) : String :=
  ⟨((s.data.dropWhile Char.isWhitespace).reverse.dropWhile
      Char.isWhitespace).reverse⟩

/-- Helper for `splitCh`. -/
def splitChAux (p : Char → Bool) : List Char → List Char → List String
  | [], acc => [⟨acc.reverse⟩]
  | c :: rest, acc =>
    if p c then ⟨acc.reverse⟩ :: splitChAux p rest []
    else splitChAux p rest (c :: acc)

/-- Split at every separator character, keeping empty pieces (the
`String.prototype.split` semantics the sources rely on). -/
def splitCh (p : Char → Bool) (s : String) : List String :=
  splitChAux p s.data []

/-- Word-boundary test `\b` at position `j` of `l`: the `\w`-ness of the
characters on either side of position `j` differs (positions outside the
string count as non-word). -/
def boundaryAt (l : List Char) (j : Nat) : Bool :=
  let left := if j = 0 then false else isWordChar (l.getD (j - 1) ' ')
  let right := if j < l.length then isWordChar (l.getD j ' ') else false
  left ≠ right

/-- Model of `new RegExp("\\b" + esc(pat) + "\\b", "i").test(hay)` for a
literal (escaped) pattern: a case-insensitive occurrence of `pat` with word
boundaries on both sides.  This is how both link detectors in
`elementor-converter.js` match their keyword lists. -/
def wholeWordHit (hay pat : String) : Bool :=
  let h := (toLowerStr hay).data
  let p := (toLowerStr pat).data
  (List.range (h.length + 1)).any fun i =>
    subAt h p i && boundaryAt h i && boundaryAt h (i + p.length)

/-- JavaScript `parseInt` on the decimal strings that occur in style data:
optional leading whitespace, optional sign, then leading digits; `NaN`
(here `none`) when no digit is found. -/
def parseIntJS (s : String) : Option Int :=
  let l := s.data.dropWhile (·.isWhitespace)
  let (sign, l) : Int × List Char :=
    match l with
    | '-' :: rest => (-1, rest)
    | '+' :: rest => (1, rest)
    | _ => (1, l)
  let digits := l.takeWhile isDigitCh
  if digits = [] then none
  else some (sign * (digits.foldl (fun a c => a * 10 + (c.toNat - 48)) 0 : Nat))

/-- JavaScript `parseFloat` on simple decimal strings (optional sign,
digits, optional fractional part); `NaN` is `none`. -/
def parseFloatJS (s : String) : Option Rat :=
  let l := s.data.dropWhile (·.isWhitespace)
  let (sign, l) : Rat × List Char :=
    match l with
    | '-' :: rest => (-1, rest)
    | '+' :: rest => (1, rest)
    | _ => (1, l)
  let intPart := l.takeWhile isDigitCh
  let rest := l.drop intPart.length
  let fracPart :=
    match rest with
    | '.' :: r => r.takeWhile isDigitCh
    | _ => []
  if intPart = [] ∧ fracPart = [] then none
  else
    let iv : Nat := intPart.foldl (fun a c => a * 10 + (c.toNat - 48)) 0
    let fv : Nat := fracPart.foldl (fun a c => a * 10 + (c.toNat - 48)) 0
    some (sign * ((iv : Rat) + (fv : Rat) / ((10 : Rat) ^ fracPart.length)))

/-- JS truthiness of an optional string (absent and `""` are falsy). -/
def truthy : Option String → Bool
  | none => false
  | some s => s ≠ ""

/-- Value of an optional string, `""` for absent (JS `x || ""`). -/
def orEmpty (o : Option String) : String := o.getD ""

/-- JavaScript `x.trim().split(/\s+/)`: note that splitting the empty
string yields `[""]`, not `[]`. -/
def splitWsJS (s : String) : List String :=
  let t := trimStr s
  if t = "" then [""]
  else (splitCh (·.isWhitespace) t).filter (· ≠ "")

/-! ## JSON-like settings values

Elementor widget `settings` objects are association lists over this value
type; JS object-key assignment is `setKey` (replace-or-append), key reads
are `getKey`. -/

inductive JVal where
  | s (v : String)
  | i (v : Int)
  | q (v : Rat)
  | b (v : Bool)
  | null
  | obj (fields : List (String × JVal))
  | arr (elems : List JVal)
deriving Repr

/-- Settings object: key-value list. -/
abbrev Settings := List (String × JVal)

/-- JS assignment `o[k] = v`: replace the binding in place, or append. -/
def setKey : Settings → String → JVal → Settings
  | [], k, v => [(k, v)]
  | (k0, v0) :: rest, k, v =>
    if k0 = k then (k, v) :: rest else (k0, v0) :: setKey rest k v

/-- JS read `o[k]` (`none` for absent). -/
def getKey : Settings → String → Option JVal
  | [], _ => none
  | (k0, v0) :: rest, k => if k0 = k then some v0 else getKey rest k

/-- JS truthiness of a settings read (`undefined`, `""`, `0`, `false`,
`null` are falsy; objects and arrays are truthy). -/
def jTruthy : Option JVal → Bool
  | none => false
  | some (.s v) => v ≠ ""
  | some (.i v) => v ≠ 0
  | some (.q v) => v ≠ 0
  | some (.b v) => v
  | some .null => false
  | some (.obj _) => true
  | some (.arr _) => true

theorem getKey_setKey_self (st : Settings) (k : String) (v : JVal) :
    getKey (setKey st k v) k = some v := by
  induction st with
  | nil => simp [setKey, getKey]
  | cons hd tl ih =>
    obtain ⟨k0, v0⟩ := hd
    by_cases h : k0 = k <;> simp [setKey, getKey, h, ih]

theorem getKey_setKey_ne (st : Settings) {k k1 : String} (v : JVal)
    (h : k1 ≠ k) : getKey (setKey st k1 v) k = getKey st k := by
  induction st with
  | nil => simp [setKey, getKey, h]
  | cons hd tl ih =>
    obtain ⟨k0, v0⟩ := hd
    by_cases h0 : k0 = k1
    · subst h0; simp [setKey, getKey, h]
    · simp only [setKey, if_neg h0]
      by_cases h2 : k0 = k <;> simp [getKey, h2, ih]

/-! ## Converter data model

`Elem` is the scraped IR node shape consumed by `elementor-converter.js`
(`{tagName, className, attributes, layout, textContent, innerHTML,
allTextContent, children}`); absent string-valued style fields are
`Option.none` (JS `undefined`).  `ENode` is a produced Elementor element
(`{id, elType, widgetType, settings, elements}`); the 8-char random ids of
`generateElementId` are opaque and modelled by a threaded counter. -/

/-- CSS spacing as captured in layout data: either a shorthand string or a
4-sided `{top,right,bottom,left}` object. -/
inductive Spacing where
  | strv (s : String)
  | sides (top right bottom left : Option String)
deriving Repr

/-- JS truthiness of an optional spacing value: objects are truthy, a
string is truthy iff nonempty. -/
def spacingTruthy : Option Spacing → Bool
  | none => false
  | some (.strv s) => s ≠ ""
  | some (.sides _ _ _ _) => true

/-- The resolved style snapshot of an IR node. -/
structure Layout where
  color : Option String := none
  backgroundColor : Option String := none
  backgroundImage : Option String := none
  fontFamily : Option String := none
  fontSize : Option String := none
  fontWeight : Option String := none
  lineHeight : Option String := none
  margin : Option Spacing := none
  padding : Option Spacing := none
  border : Option String := none
  borderRadius : Option String := none
  boxShadow : Option String := none
  textAlign : Option String := none
  display : Option String := none
  width : Option String := none
  height : Option String := none
deriving Repr

/-- The element attributes read by the converter. -/
structure Attrs where
  src : Option String := none
  href : Option String := none
  alt : Option String := none
  typ : Option String := none
deriving Repr

/-- A scraped IR node. -/
inductive Elem where
  | mk (tagName : String) (className : String) (attributes : Attrs)
       (layout : Layout) (textContent : String) (innerHTML : String)
       (allTextContent : String) (children : List Elem)
deriving Repr

def Elem.tagName : Elem → String | .mk t _ _ _ _ _ _ _ => t
def Elem.className : Elem → String | .mk _ c _ _ _ _ _ _ => c
def Elem.attributes : Elem → Attrs | .mk _ _ a _ _ _ _ _ => a
def Elem.layout : Elem → Layout | .mk _ _ _ l _ _ _ _ => l
def Elem.textContent : Elem → String | .mk _ _ _ _ t _ _ _ => t
def Elem.innerHTML : Elem → String | .mk _ _ _ _ _ h _ _ => h
def Elem.allTextContent : Elem → String | .mk _ _ _ _ _ _ a _ => a
def Elem.children : Elem → List Elem | .mk _ _ _ _ _ _ _ c => c

/-- A produced Elementor element. -/
inductive ENode where
  | mk (id : Nat) (elType : String) (widgetType : Option String)
       (settings : Settings) (elements : List ENode)
deriving Repr

def ENode.idOf : ENode → Nat | .mk i _ _ _ _ => i
def ENode.elType : ENode → String | .mk _ t _ _ _ => t
def ENode.widgetType : ENode → Option String | .mk _ _ w _ _ => w
def ENode.settings : ENode → Settings | .mk _ _ _ s _ => s
def ENode.elements : ENode → List ENode | .mk _ _ _ _ e => e

instance : Inhabited ENode := ⟨.mk 0 "" none [] []⟩

def ENode.withSettings : ENode → Settings → ENode
  | .mk i t w _ e, s => .mk i t w s e

/-- `columns[0].elements.push(...imageWidgets)` — append to the elements
array of a node. -/
def ENode.pushElements : ENode → List ENode → ENode
  | .mk i t w s e, more => .mk i t w s (e ++ more)

/-! ## Link detectors (`isButtonLike`, `isNavigationLink`) -/

/-- The CTA-family class keywords of `isButtonLike`. -/
def buttonClasses : List String :=
  ["btn", "button", "cta", "call-to-action", "action", "submit", "download"]

/-- `parseInt(o) >= n` under JS `NaN` semantics (`NaN >= n` is false, and
reading a field off a non-object is `undefined`, hence `NaN`). -/
def parseIntGE (o : Option String) (n : Int) : Bool :=
  match o with
  | none => false
  | some s => match parseIntJS s with
    | some v => n ≤ v
    | none => false

/-- `parseInt(o) > n` under the same `NaN` semantics. -/
def parseIntGT (o : Option String) (n : Int) : Bool :=
  match o with
  | none => false
  | some s => match parseIntJS s with
    | some v => n < v
    | none => false

/-- Field read `padding.top` etc. of a spacing value (`undefined` when the
spacing is a shorthand string). -/
def Spacing.topF : Spacing → Option String
  | .strv _ => none | .sides t _ _ _ => t
def Spacing.rightF : Spacing → Option String
  | .strv _ => none | .sides _ r _ _ => r
def Spacing.bottomF : Spacing → Option String
  | .strv _ => none | .sides _ _ b _ => b
def Spacing.leftF : Spacing → Option String
  | .strv _ => none | .sides _ _ _ l => l

/-- `hasButtonClass` of `isButtonLike`: a whole-word, case-insensitive
occurrence of a CTA keyword in the class string. -/
def hasButtonClass (className : String) : Bool :=
  buttonClasses.any fun kw => wholeWordHit className kw

/-- `isButtonTag` of `isButtonLike`. -/
def isButtonTag (e : Elem) : Bool :=
  e.tagName = "button" ||
    (e.tagName = "input" &&
      (e.attributes.typ = some "submit" || e.attributes.typ = some "button"))

/-- `hasStrongButtonStyling` of `isButtonLike`: non-transparent background
plus border-radius ≥ 3 or all four paddings ≥ 8/12. -/
def hasStrongButtonStyling (layout : Layout) : Bool :=
  truthy layout.backgroundColor &&
  orEmpty layout.backgroundColor ≠ "rgba(0, 0, 0, 0)" &&
  orEmpty layout.backgroundColor ≠ "transparent" &&
  ((truthy layout.borderRadius && parseIntGE layout.borderRadius 3) ||
   (spacingTruthy layout.padding &&
    parseIntGE (layout.padding.elim none Spacing.topF) 8 &&
    parseIntGE (layout.padding.elim none Spacing.bottomF) 8 &&
    parseIntGE (layout.padding.elim none Spacing.leftF) 12 &&
    parseIntGE (layout.padding.elim none Spacing.rightF) 12))

/-- `isButtonLike(element)`. -/
def isButtonLike (e : Elem) : Bool :=
  hasButtonClass e.className || isButtonTag e ||
    hasStrongButtonStyling e.layout

/-- The nav-family class keywords of `isNavigationLink`. -/
def navClasses : List String :=
  ["nav", "menu", "navigation", "navbar", "header-link", "footer-link"]

/-- The curated nav text phrases of `isNavigationLink`. -/
def navTextPatterns : List String :=
  ["home", "about", "contact", "services", "products", "blog",
   "portfolio", "team", "careers", "faq", "support", "pricing",
   "features", "login", "sign in", "register", "sign up"]

/-- `s` starts with `p`. -/
def strStarts (s p : String) : Bool := subAt s.data p.data 0

/-- `/^\/(about|contact|blog|services|products|team|careers|faq|support)$/i` -/
def navPathExact (href : String) : Bool :=
  ["/about", "/contact", "/blog", "/services", "/products", "/team",
   "/careers", "/faq", "/support"].any (fun p => toLowerStr href = p)

/-- `/^#[a-z-]+$/i` -/
def hashLink (href : String) : Bool :=
  match href.data with
  | '#' :: rest => rest ≠ [] && rest.all fun c => ('a' ≤ c.toLower && c.toLower ≤ 'z') || c = '-'
  | _ => false

/-- The nav URL shapes of `isNavigationLink`. -/
def hasNavUrlShape (href : String) : Bool :=
  navPathExact href || hashLink href ||
  containsSub (toLowerStr href) "/category/" ||
  containsSub (toLowerStr href) "/tag/" ||
  containsSub (toLowerStr href) "/archive/" ||
  containsSub (toLowerStr href) "/page/"

/-- The empty/placeholder href test of `isNavigationLink`. -/
def isPlaceholderHref (href : String) : Bool :=
  href = "" || href = "#" || href = "javascript:void(0)" ||
    href = "javascript:;"

/-- `hasNavClass` of `isNavigationLink`: whole-word, case-insensitive. -/
def hasNavClass (className : String) : Bool :=
  navClasses.any fun kw => wholeWordHit className kw

/-- `hasNavText` of `isNavigationLink`: equality **or plain substring
containment** of a nav phrase in the lowercased trimmed link text. -/
def hasNavText (textContent : String) : Bool :=
  navTextPatterns.any fun p => textContent = p || containsSub textContent p

/-- `isNavigationLink(element)`: empty/placeholder href, whole-word nav
class keyword, or a nav text phrase (substring match over the lowercased
trimmed text) combined with a nav-shaped or relative href. -/
def isNavigationLink (e : Elem) : Bool :=
  let href := orEmpty e.attributes.href
  let className := e.className
  let textContent := trimStr (toLowerStr e.textContent)
  if isPlaceholderHref href then true
  else if hasNavClass className then true
  else if hasNavText textContent && (hasNavUrlShape href || strStarts href "/") then
    true
  else hasNavClass className || hasNavUrlShape href

/-! ## Structural classifier (`determineElementorElementType`) -/

/-- Content tags: always widgets, never structural containers. -/
def contentTags : List String :=
  ["p", "span", "a", "h1", "h2", "h3", "h4", "h5", "h6", "img", "button",
   "input", "textarea", "label", "strong", "em", "i", "b", "u", "small",
   "mark", "del", "ins", "sub", "sup", "code", "pre", "blockquote",
   "ul", "ol", "li"]

/-- Structural child tags of the column heuristic. -/
def structuralTags : List String :=
  ["div", "section", "header", "footer", "main", "article", "aside", "nav"]

/-- `determineElementorElementType(element, parentType)`: the ordered
role heuristics of the classifier.  `children.length * 0.5` is compared
without rounding, so `contentTagCount >= children.length * 0.5` is
`2 * contentTagCount ≥ children.length`. -/
def determineElementorElementType (e : Elem) (parentType : Option String) : String :=
  let tagName := e.tagName
  let layout := e.layout
  let children := e.children
  if tagName = "body" || tagName = "section" || tagName = "header" ||
     tagName = "footer" || tagName = "main" || tagName = "article" ||
     tagName = "aside" then "section"
  else if (tagName = "div" || tagName = "nav") &&
    (parentType = some "section" ||
     (children.length > 0 &&
       (let contentTagCount := (children.filter fun c => c.tagName ∈ contentTags).length
        (contentTagCount > 0 && 2 * contentTagCount ≥ children.length) ||
        (children.filter fun c => c.tagName ∈ structuralTags).length > 0)) ||
     layout.display = some "flex" || layout.display = some "grid" ||
     (truthy layout.width && parseIntGT layout.width 200)) then "column"
  else if tagName ∈ contentTags then "widget"
  else "widget"

/-! ## Style translator (`applyElementStyles` and helpers) -/

/-- `{size, unit}` settings value. -/
def sizeObj (v : JVal) (unit : String) : JVal :=
  .obj [("size", v), ("unit", .s unit)]

/-- `{unit:"px", top, right, bottom, left, isLinked}` settings value. -/
def sidesObj (t r b l : JVal) (linked : Bool) : JVal :=
  .obj [("unit", .s "px"), ("top", t), ("right", r), ("bottom", b),
        ("left", l), ("isLinked", .b linked)]

/-- All-empty sides object. -/
def emptySides (linked : Bool) : JVal :=
  sidesObj (.s "") (.s "") (.s "") (.s "") linked

/-- `parseInt(s) || d` (NaN and 0 fall back to the default). -/
def intOr (s : String) (d : Int) : Int :=
  match parseIntJS s with
  | some v => if v = 0 then d else v
  | none => d

/-- `parseFloat(s) || d`. -/
def ratOr (s : String) (d : Rat) : Rat :=
  match parseFloatJS s with
  | some v => if v = 0 then d else v
  | none => d

/-- `fontFamily.split(',')[0].trim().replace(/['"]/g, '')`. -/
def firstFontFamily (s : String) : String :=
  let head := trimStr ((splitCh (· = ',') s).headD s)
  ⟨head.data.filter fun c => c ≠ '"' ∧ c ≠ '\x27'⟩

/-- `parsePaddingString(paddingStr)`: CSS 1/2/3/4-value shorthand into a
uniform sides object (`parseInt(p) || 0` per part). -/
def parsePaddingString (s : String) : JVal :=
  if s = "" || s = "0" || s = "0px" then emptySides false
  else
    let values := (splitWsJS s).map fun p => ((parseIntJS p).getD 0 : Int)
    match values with
    | [a] => sidesObj (.i a) (.i a) (.i a) (.i a) true
    | [a, b] => sidesObj (.i a) (.i b) (.i a) (.i b) false
    | [a, b, c] => sidesObj (.i a) (.i b) (.i c) (.i b) false
    | [a, b, c, d] => sidesObj (.i a) (.i b) (.i c) (.i d) false
    | _ => emptySides false

/-- Digits run to a number. -/
def digitsVal (l : List Char) : Nat :=
  l.foldl (fun a c => a * 10 + (c.toNat - 48)) 0

theorem takeWhileLenLe (p : Char → Bool) :
    ∀ l : List Char, (l.takeWhile p).length ≤ l.length := by
  intro l
  induction l with
  | nil => simp
  | cons a t ih =>
    by_cases h : p a
    · simp [List.takeWhile_cons, h]
      omega
    · simp [List.takeWhile_cons, h]

/-- Scanner for `findIntPx` on a character budget (a digit run is
nonempty, so each step consumes at least one character). -/
def findIntPxGo : Nat → List Char → Option Nat
  | 0, _ => none
  | _ + 1, [] => none
  | fuel + 1, c :: rest =>
    if isDigitCh c then
      let run := (c :: rest).takeWhile isDigitCh
      let after := (c :: rest).drop run.length
      if subAt after ['p', 'x'] 0 then some (digitsVal run)
      else findIntPxGo fuel after
    else findIntPxGo fuel rest

/-- First match of `/(\d+)px/`: the first maximal digit run that is
immediately followed by `px`. -/
def findIntPx (l : List Char) : Option Nat := findIntPxGo l.length l

/-- `parseBorderWidth(border)`. -/
def parseBorderWidth (border : String) : JVal :=
  if border = "" || border = "none" || border = "0" then emptySides true
  else
    let width : Int := match findIntPx border.data with
      | some w => (w : Int)
      | none => 1
    sidesObj (.i width) (.i width) (.i width) (.i width) true

/-- First match of `/rgb\([^)]+\)/`. -/
def findRgb : List Char → Option (List Char)
  | [] => none
  | c :: rest =>
    if subAt (c :: rest) ['r', 'g', 'b', '('] 0 then
      let body := ((c :: rest).drop 4).takeWhile (· ≠ ')')
      if body ≠ [] ∧ ((c :: rest).drop (4 + body.length)).head? = some ')' then
        some (['r', 'g', 'b', '('] ++ body ++ [')'])
      else findRgb rest
    else findRgb rest

/-- Hex digit. -/
def isHexCh (c : Char) : Bool :=
  isDigitCh c || ('a' ≤ c && c ≤ 'f') || ('A' ≤ c && c ≤ 'F')

/-- First match of `/#[0-9a-fA-F]{3,6}/` (greedy, up to 6 digits). -/
def findHex : List Char → Option (List Char)
  | [] => none
  | c :: rest =>
    if c = '#' then
      let run := (rest.takeWhile isHexCh).take 6
      if 3 ≤ run.length then some ('#' :: run) else findHex rest
    else findHex rest

/-- `extractBorderColor(border)`: first `rgb(...)` or hex color in the
border string, else `""`. -/
def extractBorderColor (border : String) : String :=
  if border = "" || border = "none" then ""
  else match findRgb border.data with
    | some m => ⟨m⟩
    | none => match findHex border.data with
      | some m => ⟨m⟩
      | none => ""

/-- `if (!widget.settings.typography_typography) widget.settings.typography_typography = "custom"`. -/
def ensureCustomTypography (st : Settings) : Settings :=
  if jTruthy (getKey st "typography_typography") then st
  else setKey st "typography_typography" (.s "custom")

/-- Step 1 of `applyElementStyles`: typography. -/
def styleTypography (layout : Layout) (st0 : Settings) : Settings :=
  let st := if truthy layout.fontFamily then
      setKey (setKey st0 "typography_typography" (.s "custom"))
        "typography_font_family" (.s (firstFontFamily (orEmpty layout.fontFamily)))
    else st0
  let st := if truthy layout.fontSize then
      setKey (ensureCustomTypography st) "typography_font_size"
        (sizeObj (.i (intOr (orEmpty layout.fontSize) 16)) "px")
    else st
  let st := if truthy layout.fontWeight then
      setKey (ensureCustomTypography st) "typography_font_weight"
        (.s (orEmpty layout.fontWeight))
    else st
  if truthy layout.lineHeight then
    setKey (ensureCustomTypography st) "typography_line_height"
      (sizeObj (.q (ratOr (orEmpty layout.lineHeight) (3 / 2))) "em")
  else st

/-- Step 2 of `applyElementStyles`: text and background colors, keyed by
widget type. -/
def styleColors (wt : Option String) (layout : Layout) (st0 : Settings) : Settings :=
  let color := orEmpty layout.color
  let st := if truthy layout.color ∧ color ≠ "rgb(0, 0, 0)" then
      if wt = some "heading" then setKey st0 "title_color" (.s color)
      else if wt = some "text-editor" then setKey st0 "text_color" (.s color)
      else if wt = some "button" then setKey st0 "button_text_color" (.s color)
      else st0
    else st0
  let bg := orEmpty layout.backgroundColor
  if truthy layout.backgroundColor ∧ bg ≠ "rgba(0, 0, 0, 0)" ∧ bg ≠ "transparent" then
    if wt = some "button" then setKey st "button_background_color" (.s bg)
    else setKey (setKey st "_background_background" (.s "classic")) "_background_color" (.s bg)
  else st

/-- `parseInt(side) || ''` on a 4-sided spacing object field. -/
def sideJ (o : Option String) : JVal :=
  match o with
  | none => .s ""
  | some s => match parseIntJS s with
    | some v => if v = 0 then .s "" else .i v
    | none => .s ""

/-- A margin/padding layout value to its settings object. -/
def spacingJ : Spacing → JVal
  | .sides t r b l =>
    .obj [("unit", .s "px"), ("top", sideJ t), ("right", sideJ r),
          ("bottom", sideJ b), ("left", sideJ l), ("isLinked", .b false)]
  | .strv s => parsePaddingString s

/-- Step 3 of `applyElementStyles`: margin and padding (`if
(layout.margin)` is the JS truthiness test `spacingTruthy`; when it holds
the value is present, so the `getD` default is never read). -/
def styleSpacing (layout : Layout) (st0 : Settings) : Settings :=
  let st := if spacingTruthy layout.margin then
      setKey st0 "_margin" (spacingJ (layout.margin.getD (.strv "")))
    else st0
  if spacingTruthy layout.padding then
    setKey st "_padding" (spacingJ (layout.padding.getD (.strv "")))
  else st

/-- Step 4 of `applyElementStyles`: border width/color and radius. -/
def styleBorders (layout : Layout) (st0 : Settings) : Settings :=
  let border := orEmpty layout.border
  let st := if truthy layout.border ∧ border ≠ "none" then
      let st := setKey (setKey st0 "_border_border" (.s "solid"))
        "_border_width" (parseBorderWidth border)
      let bc := extractBorderColor border
      if bc ≠ "" then setKey st "_border_color" (.s bc) else st
    else st0
  if truthy layout.borderRadius then
    let radius : Int := (parseIntJS (orEmpty layout.borderRadius)).getD 0
    setKey st "_border_radius" (sidesObj (.i radius) (.i radius) (.i radius) (.i radius) true)
  else st

/-- Step 5 of `applyElementStyles`: box shadow (fixed-shape block). -/
def styleShadow (layout : Layout) (st0 : Settings) : Settings :=
  if truthy layout.boxShadow ∧ orEmpty layout.boxShadow ≠ "none" then
    setKey (setKey st0 "_box_shadow_box_shadow_type" (.s "yes"))
      "_box_shadow_box_shadow"
      (.obj [("horizontal", .i 0), ("vertical", .i 2), ("blur", .i 5),
             ("spread", .i 0), ("color", .s "rgba(0, 0, 0, 0.1)")])
  else st0

/-- Step 6 of `applyElementStyles`: text alignment. -/
def styleAlign (layout : Layout) (st0 : Settings) : Settings :=
  if truthy layout.textAlign then setKey st0 "align" (.s (orEmpty layout.textAlign))
  else st0

/-- Step 7 of `applyElementStyles`: width/height, image widgets only. -/
def styleSize (wt : Option String) (layout : Layout) (st0 : Settings) : Settings :=
  if wt = some "image" then
    let st := if truthy layout.width then
        let wv : Int := (parseIntJS (orEmpty layout.width)).getD 0
        if 0 < wv then setKey st0 "width" (sizeObj (.i wv) "px") else st0
      else st0
    if truthy layout.height then
      let hv : Int := (parseIntJS (orEmpty layout.height)).getD 0
      if 0 < hv then setKey st "height" (sizeObj (.i hv) "px") else st
    else st
  else st0

/-- `applyElementStyles(widget, element)`: the seven numbered styling
sections applied in source order to the widget settings.  The second
source argument is only read through `element?.layout || {}`, so the model
takes the layout directly (callers that pass a produced node, which has no
`layout` property, pass the all-absent layout `{}`). -/
def applyElementStyles (w : ENode) (layout : Layout) : ENode :=
  w.withSettings
    (styleSize w.widgetType layout
      (styleAlign layout
        (styleShadow layout
          (styleBorders layout
            (styleSpacing layout
              (styleColors w.widgetType layout
                (styleTypography layout w.settings)))))))

/-! ## Section/column settings and the fallback text widget styling -/

/-- Background truthiness shared by `buildSectionSettings` and
`buildColumnSettings`. -/
def hasBackgroundL (layout : Layout) : Bool :=
  truthy layout.backgroundColor &&
  orEmpty layout.backgroundColor ≠ "rgba(0, 0, 0, 0)" &&
  orEmpty layout.backgroundColor ≠ "transparent"

/-- `_background_image` value shared by both settings builders. -/
def backgroundImageJ (layout : Layout) : JVal :=
  if truthy layout.backgroundImage ∧ orEmpty layout.backgroundImage ≠ "none" then
    .obj [("url", .s (orEmpty layout.backgroundImage))]
  else .s ""

/-- `buildSectionSettings(element)`. -/
def buildSectionSettings (layout : Layout) : Settings :=
  [("_element_width", .s ""), ("_element_width_tablet", .s ""),
   ("_element_width_mobile", .s ""), ("_element_custom_width", .null),
   ("_element_vertical_align", .null),
   ("_background_background", .s (if hasBackgroundL layout then "classic" else "")),
   ("_background_color", .s (if hasBackgroundL layout then orEmpty layout.backgroundColor else "")),
   ("_background_image", backgroundImageJ layout),
   ("_border_border", .s ""), ("_border_width", emptySides true),
   ("_border_color", .s ""), ("_border_radius", emptySides true),
   ("_box_shadow_box_shadow_type", .s ""),
   ("_margin", emptySides false), ("_padding", emptySides false)]

/-- `buildColumnSettings(element)`. -/
def buildColumnSettings (layout : Layout) : Settings :=
  [("_column_size", .i 100), ("_inline_size", .null),
   ("_background_background", .s (if hasBackgroundL layout then "classic" else "")),
   ("_background_color", .s (if hasBackgroundL layout then orEmpty layout.backgroundColor else "")),
   ("_background_image", backgroundImageJ layout),
   ("_border_border", .s ""), ("_border_width", emptySides true),
   ("_border_color", .s ""), ("_border_radius", emptySides true),
   ("_margin", emptySides false),
   ("_padding", sidesObj (.s "20") (.s "20") (.s "20") (.s "20") true)]

/-- `DEFAULT_TEXT_STYLING` of the converter constructor. -/
def defaultTextStyling : Settings :=
  [("typography_typography", .s "custom"),
   ("typography_font_family", .s "Arial, sans-serif"),
   ("typography_font_size", sizeObj (.i 16) "px"),
   ("typography_font_weight", .s "400"),
   ("typography_line_height", sizeObj (.q (3 / 2)) "em"),
   ("text_color", .s "#333333")]

/-! ## Asset URL matching (`findMatchingAsset`) -/

/-- A validated image entry of the asset mapping
(`{originalUrl, absoluteUrl, localUrl}`; `absoluteUrl` is not validated and
may be absent). -/
structure AssetImg where
  originalUrl : String
  absoluteUrl : Option String
  localUrl : String
deriving Repr, DecidableEq

/-- Cut a path at the first `?` or `#`. -/
def cutQF (l : List Char) : List Char :=
  l.takeWhile fun c => c ≠ '?' ∧ c ≠ '#'

/-- `new URL(url, "http://dummy.com").pathname` for the URL shapes the
pipeline produces: absolute `http(s)://`, scheme-relative `//`,
absolute-path and plain relative references (dot segments are not
normalized; the converter never produces them).  The `catch` branch of the
source (`url.split("?")[0].split("#")[0]` for unparsable input) agrees
with the relative branches on this subset. -/
def pathnameOf (u : String) : String :=
  let l := u.data
  if strStarts u "http://" ∨ strStarts u "https://" then
    let afterScheme := l.drop (if strStarts u "https://" then 8 else 7)
    let path := afterScheme.dropWhile fun c => c ≠ '/' ∧ c ≠ '?' ∧ c ≠ '#'
    match path with
    | '/' :: _ => ⟨cutQF path⟩
    | _ => "/"
  else if strStarts u "//" then
    let afterHost := (l.drop 2).dropWhile fun c => c ≠ '/' ∧ c ≠ '?' ∧ c ≠ '#'
    match afterHost with
    | '/' :: _ => ⟨cutQF afterHost⟩
    | _ => "/"
  else if strStarts u "/" then ⟨cutQF l⟩
  else ⟨'/' :: cutQF l⟩

/-- `normalizeUrl` of `findMatchingAsset`: the parsed pathname (note this
also strips scheme, host and port, not only query string and fragment). -/
def normalizeUrl (u : String) : String := pathnameOf u

/-- `normalizeUrl(img.absoluteUrl)` where `absoluteUrl` may be absent: the
URL constructor stringifies `undefined` to `"undefined"`. -/
def normalizeUrlOpt (o : Option String) : String :=
  normalizeUrl (o.getD "undefined")

/-- `getFilename` of `findMatchingAsset`:
`normalizeUrl(url).split("/").pop() || ""`. -/
def getFilename (u : String) : String :=
  (splitCh (· = '/') (normalizeUrl u)).getLastD ""

/-- Tier 1: exact match on original or absolute URL. -/
def findAssetTier1 (imageUrl : String) (assetImages : List AssetImg) : Option AssetImg :=
  assetImages.find? fun img =>
    img.originalUrl = imageUrl ∨ img.absoluteUrl = some imageUrl

/-- Tier 2: match on normalized URLs. -/
def findAssetTier2 (imageUrl : String) (assetImages : List AssetImg) : Option AssetImg :=
  assetImages.find? fun img =>
    normalizeUrl img.originalUrl = normalizeUrl imageUrl ∨
    normalizeUrlOpt img.absoluteUrl = normalizeUrl imageUrl

/-- Tier 3: trailing-filename match (original URLs only, nonempty and
identical filenames). -/
def findAssetTier3 (imageUrl : String) (assetImages : List AssetImg) : Option AssetImg :=
  if getFilename imageUrl ≠ "" then
    assetImages.find? fun img =>
      getFilename img.originalUrl ≠ "" ∧
      getFilename img.originalUrl = getFilename imageUrl
  else none

/-- `findMatchingAsset(imageUrl, assetImages)`: the three strategies in
decreasing precision, first match wins, `null` when nothing matches. -/
def findMatchingAsset (imageUrl : String) (assetImages : List AssetImg) : Option AssetImg :=
  if imageUrl = "" ∨ assetImages = [] then none
  else
    match findAssetTier1 imageUrl assetImages with
    | some m => some m
    | none =>
      match findAssetTier2 imageUrl assetImages with
      | some m => some m
      | none => findAssetTier3 imageUrl assetImages

/-! ## Widget builder (`buildWidget`) -/

/-- `...(cond && {key: value})` — conditional key of an object literal. -/
def condKV (cond : Bool) (k : String) (v : JVal) : Settings :=
  if cond then [(k, v)] else []

/-- The conditional typography keys shared by the heading, text-editor and
button branches of `buildWidget`. -/
def condTypoFamily (layout : Layout) : Settings :=
  condKV (truthy layout.fontFamily) "typography_font_family"
    (.s (firstFontFamily (orEmpty layout.fontFamily)))

def condTypoSize (layout : Layout) : Settings :=
  condKV (truthy layout.fontSize) "typography_font_size"
    (sizeObj (.i (intOr (orEmpty layout.fontSize) 16)) "px")

def condTypoWeight (layout : Layout) : Settings :=
  condKV (truthy layout.fontWeight) "typography_font_weight"
    (.s (orEmpty layout.fontWeight))

def condTypoLineHeight (layout : Layout) : Settings :=
  condKV (truthy layout.lineHeight) "typography_line_height"
    (sizeObj (.q (ratOr (orEmpty layout.lineHeight) (3 / 2))) "em")

/-- `layout.textAlign || "left"`. -/
def alignOrLeft (layout : Layout) : String :=
  if truthy layout.textAlign then orEmpty layout.textAlign else "left"

/-- `buildWidget(element)`: widget type dispatch by tag with per-type
settings.  `assetImages` is the converter instance state
`this.assetMapping.images` (validated image mapping); the threaded counter
stands for the 8-char random element ids.  The source `element.tagName ||
element.tag || "div"` and `element.allTextContent || element.textContent ||
element.text || element.innerHTML || ""` alternate field names (`tag`,
`text`) belong to input shapes the IR never produces and are not modelled.
The final overrides (`baseWidget.elType = "widget"`, `baseWidget.elements
= []`) make every produced node a widget with empty children. -/
def buildWidget (assetImages : List AssetImg) (e : Elem) (counter : Nat) :
    ENode × Nat :=
  let tagName := if e.tagName ≠ "" then e.tagName else "div"
  let textContent :=
    if e.allTextContent ≠ "" then e.allTextContent
    else if e.textContent ≠ "" then e.textContent
    else e.innerHTML
  let attrs := e.attributes
  let layout := e.layout
  let wtAndSettings : String × Settings :=
    if tagName = "img" then
      let imageUrl0 := orEmpty attrs.src
      let imageUrl :=
        if imageUrl0 ≠ "" ∧ assetImages ≠ [] then
          match findMatchingAsset imageUrl0 assetImages with
          | some d => if d.localUrl ≠ "" then d.localUrl else imageUrl0
          | none => imageUrl0
        else imageUrl0
      ("image",
        [("image", if imageUrl ≠ "" then
            .obj [("url", .s imageUrl), ("alt", .s (orEmpty attrs.alt))]
          else .s ""),
         ("image_size", .s "full"), ("align", .s "center")])
    else if tagName ∈ ["h1", "h2", "h3", "h4", "h5", "h6"] then
      ("heading",
        [("title", .s (if textContent ≠ "" then textContent else "Heading")),
         ("header_size", .s (if tagName ≠ "" then tagName else "h2")),
         ("align", .s (alignOrLeft layout))] ++
        condKV (truthy layout.color ∧ orEmpty layout.color ≠ "rgb(0, 0, 0)")
          "title_color" (.s (orEmpty layout.color)) ++
        [("typography_typography", .s "custom")] ++
        condTypoFamily layout ++ condTypoSize layout ++
        condTypoWeight layout ++ condTypoLineHeight layout)
    else if tagName = "a" then
      let href := orEmpty attrs.href
      let isNav := isNavigationLink e
      let isBtn := isButtonLike e
      if isNav ∧ ¬isBtn then
        ("text-editor",
          [("editor", .s (if textContent ≠ "" then textContent else "Text content")),
           ("align", .s (alignOrLeft layout))] ++
          condKV (truthy layout.color ∧ orEmpty layout.color ≠ "rgb(0, 0, 0)")
            "text_color" (.s (orEmpty layout.color)) ++
          [("typography_typography", .s "custom")] ++
          condTypoFamily layout ++ condTypoSize layout ++
          condTypoWeight layout ++ condTypoLineHeight layout)
      else
        ("button",
          [("text", .s (if textContent ≠ "" then textContent else "Click Here")),
           ("link", .obj [("url", .s (if href ≠ "" then href else "#")),
                          ("is_external", .s ""), ("nofollow", .s "")]),
           ("align", .s (alignOrLeft layout)),
           ("button_type", .s "default"), ("size", .s "sm")] ++
          condKV (truthy layout.backgroundColor ∧
                  orEmpty layout.backgroundColor ≠ "rgba(0, 0, 0, 0)")
            "button_background_color" (.s (orEmpty layout.backgroundColor)) ++
          condKV (truthy layout.color)
            "button_text_color" (.s (orEmpty layout.color)) ++
          [("typography_typography", .s "custom")] ++
          condTypoFamily layout ++ condTypoSize layout)
    else
      ("text-editor",
        [("editor", .s (if textContent ≠ "" then textContent else "Text content")),
         ("align", .s (alignOrLeft layout))] ++
        condKV (truthy layout.color ∧ orEmpty layout.color ≠ "rgb(0, 0, 0)")
          "text_color" (.s (orEmpty layout.color)) ++
        [("typography_typography", .s "custom")] ++
        condTypoFamily layout ++ condTypoSize layout ++
        condTypoWeight layout ++ condTypoLineHeight layout)
  (ENode.mk counter "widget" (some wtAndSettings.1) wtAndSettings.2 [],
   counter + 1)

/-! ## Structure conversion (`convertStructureToElementor`)

The conversion threads an explicit state: the id counter (standing for
`generateElementId()`) and the per-instance image cache `this._imageCache`
used by `extractAllImages`. -/

/-- Converter state. -/
structure ConvSt where
  counter : Nat
  imageCache : Option (List Elem)
deriving Repr

/-- Draw a fresh element id. -/
def freshId (st : ConvSt) : Nat × ConvSt :=
  (st.counter, { st with counter := st.counter + 1 })

/-- The image snapshot pushed by `extractAllImages` (`{tagName: "img",
attributes, layout, textContent, innerHTML}` — no children, no
`allTextContent`, no `className`). -/
def imgSnapshot (e : Elem) : Elem :=
  .mk "img" "" e.attributes e.layout e.textContent e.innerHTML "" []

mutual
/-- The `traverse` closure of `extractAllImages`: depth-bounded walk with
`src`-based duplicate detection; a duplicate `img` is skipped entirely
(children included), a fresh `img` is recorded and then its children are
still visited. -/
def extractImgsE (e : Elem) (depth : Nat) (acc : List Elem × List String) :
    List Elem × List String :=
  match e with
  | .mk _ _ _ _ _ _ _ children =>
    if depth > 50 then acc
    else
      let src := orEmpty e.attributes.src
      if e.tagName = "img" ∧ src ≠ "" ∧ src ∈ acc.2 then acc
      else
        let acc2 :=
          if e.tagName = "img" then
            (acc.1 ++ [imgSnapshot e], if src ≠ "" then src :: acc.2 else acc.2)
          else acc
        extractImgsL children (depth + 1) acc2

def extractImgsL (es : List Elem) (depth : Nat)
    (acc : List Elem × List String) : List Elem × List String :=
  match es with
  | [] => acc
  | e :: rest => extractImgsL rest depth (extractImgsE e depth acc)
end

/-- `extractAllImages(element)` with `useCache = true`: return the cached
list when present, else traverse and fill the cache. -/
def extractAllImagesC (e : Elem) (st : ConvSt) : List Elem × ConvSt :=
  match st.imageCache with
  | some l => (l, st)
  | none =>
    let l := (extractImgsE e 0 ([], [])).1
    (l, { st with imageCache := some l })

/-- The fallback text widget built from a source element (`editor:
element.textContent || element.innerHTML || "Edit this text in Elementor"`
plus `DEFAULT_TEXT_STYLING`, then `applyElementStyles` with the element's
layout). -/
def fallbackTextWidget (e : Elem) (wid : Nat) : ENode :=
  applyElementStyles
    (ENode.mk wid "widget" (some "text-editor")
      ([("editor", .s (if e.textContent ≠ "" then e.textContent
          else if e.innerHTML ≠ "" then e.innerHTML
          else "Edit this text in Elementor")),
        ("align", .s "left")] ++ defaultTextStyling) [])
    e.layout

/-- The text widget that replaces a produced non-widget node during
normalization: the source reads `child.textContent`/`child.innerHTML` and
`child.layout` off a produced node, which has none of these properties, so
the editor text and layout are the defaults. -/
def wrapNodeTextWidget (wid : Nat) : ENode :=
  applyElementStyles
    (ENode.mk wid "widget" (some "text-editor")
      ([("editor", .s "Edit this text in Elementor"),
        ("align", .s "left")] ++ defaultTextStyling) [])
    {}

/-- The per-child body of the `columns.map(...)` normalization of the
section branch: a child that is not already a column is wrapped in one
(widgets kept as the column's single element, anything else replaced by a
default text widget). -/
def normSectionChild (secLayout : Layout) (c : ENode) (st : ConvSt) :
    ENode × ConvSt :=
  if c.elType ≠ "column" then
    let (cid, st) := freshId st
    let (inner, st) :=
      if c.elType = "widget" then (c, st)
      else
        let (wid, st) := freshId st
        (wrapNodeTextWidget wid, st)
    (ENode.mk cid "column" none (buildColumnSettings secLayout) [inner], st)
  else (c, st)

/-- The `columns.map(...)` normalization of the section branch. -/
def normSectionChildren (secLayout : Layout) :
    List ENode → ConvSt → List ENode × ConvSt
  | [], st => ([], st)
  | c :: cs, st =>
    let (c2, st) := normSectionChild secLayout c st
    let (rest, st) := normSectionChildren secLayout cs st
    (c2 :: rest, st)

/-- The per-child body of the `columnElements.map(...)` normalization of
the column branch: a produced child that is not a widget is replaced by a
default text widget. -/
def normColumnChild (c : ENode) (st : ConvSt) : ENode × ConvSt :=
  if c.elType ≠ "widget" then
    let (wid, st) := freshId st
    (wrapNodeTextWidget wid, st)
  else (c, st)

/-- The `columnElements.map(...)` normalization of the column branch. -/
def normColumnChildren : List ENode → ConvSt → List ENode × ConvSt
  | [], st => ([], st)
  | c :: cs, st =>
    let (c2, st) := normColumnChild c st
    let (rest, st) := normColumnChildren cs st
    (c2 :: rest, st)

/-- `sectionImages.map(img => this.buildWidget(img))`. -/
def buildWidgetList (assetImages : List AssetImg) :
    List Elem → ConvSt → List ENode × ConvSt
  | [], st => ([], st)
  | e :: rest, st =>
    let (w, cnt) := buildWidget assetImages e st.counter
    let (ws, st) := buildWidgetList assetImages rest { st with counter := cnt }
    (w :: ws, st)

mutual
/-- The `convertElement` closure of `convertStructureToElementor`. -/
def convElem (assetImages : List AssetImg) (e : Elem)
    (parentType : Option String) (st : ConvSt) : Option ENode × ConvSt :=
  match e with
  | .mk _ _ _ _ _ _ _ children =>
    match determineElementorElementType e parentType with
    | "section" =>
      let (sectionImages, st) := extractAllImagesC e st
      let (sectionChildren, st) := convChildren assetImages children (some "section") st
      let (columns, st) :=
        if sectionChildren.isEmpty then
          let (cid, st) := freshId st
          let (wid, st) := freshId st
          ([ENode.mk cid "column" none (buildColumnSettings e.layout)
              [fallbackTextWidget e wid]], st)
        else (sectionChildren, st)
      let (columns, st) :=
        if !sectionImages.isEmpty && !columns.isEmpty then
          let (imageWidgets, st) := buildWidgetList assetImages sectionImages st
          match columns with
          | c :: rest => (ENode.pushElements c imageWidgets :: rest, st)
          | [] => ([], st)
        else (columns, st)
      let (sid, st) := freshId st
      let (normed, st) := normSectionChildren e.layout columns st
      (some (ENode.mk sid "section" none (buildSectionSettings e.layout) normed), st)
    | "column" =>
      let (columnElements, st) := convChildren assetImages children (some "column") st
      let (widgetElements, st) := normColumnChildren columnElements st
      let (finalElements, st) :=
        if widgetElements.isEmpty then
          let (wid, st) := freshId st
          ([fallbackTextWidget e wid], st)
        else (widgetElements, st)
      let (cid, st) := freshId st
      (some (ENode.mk cid "column" none (buildColumnSettings e.layout) finalElements), st)
    | "widget" =>
      let (w, cnt) := buildWidget assetImages e st.counter
      (some w, { st with counter := cnt })
    | _ => (none, st)

/-- `children.map(child => convertElement(child, parentType)).filter(Boolean)`. -/
def convChildren (assetImages : List AssetImg) (es : List Elem)
    (parentType : Option String) (st : ConvSt) : List ENode × ConvSt :=
  match es with
  | [] => ([], st)
  | e :: rest =>
    let (r, st) := convElem assetImages e parentType st
    let (rs, st) := convChildren assetImages rest parentType st
    match r with
    | some n => (n :: rs, st)
    | none => (rs, st)
end

/-- `convertStructureToElementor(structure)`: convert the root, then
guarantee a non-empty all-section content list (fallback
section/column/text-widget when conversion yields nothing; wrap a
non-section root in a synthetic section/column pair). -/
def convertStructureToElementor (assetImages : List AssetImg)
    (s : Option Elem) (st : ConvSt) : List ENode × ConvSt :=
  match s with
  | none => ([], st)
  | some e =>
    let (root, st) := convElem assetImages e none st
    match root with
    | none =>
      let (sid, st) := freshId st
      let (cid, st) := freshId st
      let (wid, st) := freshId st
      ([ENode.mk sid "section" none (buildSectionSettings e.layout)
          [ENode.mk cid "column" none (buildColumnSettings e.layout)
            [applyElementStyles
              (ENode.mk wid "widget" (some "text-editor")
                ([("editor", .s (if e.textContent ≠ "" then e.textContent
                    else "Edit this text in Elementor")),
                  ("align", .s "left")] ++ defaultTextStyling) [])
              e.layout]]], st)
    | some rootNode =>
      if rootNode.elType ≠ "section" then
        let (sid, st) := freshId st
        let (cid, st) := freshId st
        ([ENode.mk sid "section" none (buildSectionSettings e.layout)
            [ENode.mk cid "column" none (buildColumnSettings e.layout)
              [rootNode]]], st)
      else ([rootNode], st)

/-! ## The hierarchy invariant checker -/

mutual
/-- Per-node hierarchy legality: a section's elements are columns, a
column's elements are widgets, a widget has no elements — recursively. -/
def nodeHierOk : ENode → Bool
  | .mk _ t _ _ els =>
    (!(t == "section") || els.all fun c => c.elType == "column") &&
    (!(t == "column") || els.all fun c => c.elType == "widget") &&
    (!(t == "widget") || els.isEmpty) &&
    listHierOk els

def listHierOk : List ENode → Bool
  | [] => true
  | n :: rest => nodeHierOk n && listHierOk rest
end

/-- The full claimed invariant over a produced content list: every entry
is a section and the strict section → column → widget → leaf nesting holds
throughout. -/
def contentHierOk (l : List ENode) : Bool :=
  (l.all fun n => n.elType == "section") && listHierOk l

/-! ## Storage manager (`storage-manager.js`)

The filesystem under `baseDir` is a `Store`: an association list from
session id to session directory.  A directory holds the optional
`metadata.json` (possibly unparsable) and the saved asset files.
`Date.now()` is the explicit `now` argument. -/

/-- Replace-or-append in an association list (JS map assignment). -/
def assocSet {α : Type} : List (String × α) → String → α → List (String × α)
  | [], k, v => [(k, v)]
  | (k0, v0) :: rest, k, v =>
    if k0 = k then (k, v) :: rest else (k0, v0) :: assocSet rest k v

/-- Lookup in an association list. -/
def assocGet {α : Type} : List (String × α) → String → Option α
  | [], _ => none
  | (k0, v0) :: rest, k => if k0 = k then some v0 else assocGet rest k

/-- An asset record tracked in session metadata. -/
structure AssetRec where
  filename : String
  path : String
  size : Nat
  savedAt : Nat
  addedAt : Nat
deriving Repr, DecidableEq

/-- The session metadata document. -/
structure Metadata where
  sessionId : String
  createdAt : Nat
  expiresAt : Nat
  locked : Bool
  assets : List (String × List AssetRec)
deriving Repr, DecidableEq

/-- Raw content of `metadata.json`: a parsable document or corrupt bytes
(`JSON.parse` throws). -/
inductive MetaRaw where
  | valid (m : Metadata)
  | corrupt
deriving Repr, DecidableEq

/-- A session directory: the optional metadata file plus asset files
(path, byte size). -/
structure SessDir where
  meta : Option MetaRaw := none
  files : List (String × Nat) := []
deriving Repr, DecidableEq

/-- The storage root. -/
abbrev Store := List (String × SessDir)

/-- `getSession(sessionId)`: `null` when the metadata file is missing,
unparsable, or the session is past its TTL (`Date.now() >
metadata.expiresAt`). -/
def getSession (now : Nat) (st : Store) (id : String) : Option Metadata :=
  match assocGet st id with
  | none => none
  | some dir =>
    match dir.meta with
    | none => none
    | some .corrupt => none
    | some (.valid m) => if m.expiresAt < now then none else some m

/-- The filesystem effect of `saveMetadata(sessionId, metadata)` (the lock
protocol around the write is modelled separately by
`saveMetadataEvents`): write the full document, failing when the session
directory does not exist. -/
def saveMetadataFS (st : Store) (id : String) (m : Metadata) :
    Except String Store :=
  match assocGet st id with
  | none => .error ("ENOENT: no session directory " ++ id)
  | some dir => .ok (assocSet st id { dir with meta := some (.valid m) })

/-- `trackAsset(sessionId, assetType, assetInfo)`: re-read the session,
append the record with an `addedAt` stamp, persist; throws when the
session is missing or expired. -/
def trackAsset (now : Nat) (st : Store) (id assetType : String)
    (info : AssetRec) : Except String Store :=
  match getSession now st id with
  | none => .error ("Session " ++ id ++ " not found or expired")
  | some m =>
    let lst := (assocGet m.assets assetType).getD []
    let stamped : AssetRec := { info with addedAt := now }
    let m2 := { m with assets := assocSet m.assets assetType (lst ++ [stamped]) }
    saveMetadataFS st id m2

/-- `getAssetPath(sessionId, assetType, filename)` relative to `baseDir`. -/
def getAssetPath (id assetType filename : String) : String :=
  id ++ "/" ++ assetType ++ "/" ++ filename

/-- `saveAsset(sessionId, assetType, filename, data)`: check the session,
write the file, then track the descriptor; throws "not found or expired"
before touching anything when the session is missing or expired. -/
def saveAsset (now : Nat) (st : Store) (id assetType filename : String)
    (dataLen : Nat) : Except String (AssetRec × Store) :=
  match getSession now st id with
  | none => .error ("Session " ++ id ++ " not found or expired")
  | some _ =>
    match assocGet st id with
    | none => .error ("ENOENT: no session directory " ++ id)
    | some dir =>
      let path := getAssetPath id assetType filename
      let st1 := assocSet st id { dir with files := assocSet dir.files path dataLen }
      let info : AssetRec :=
        { filename := filename, path := path, size := dataLen,
          savedAt := now, addedAt := 0 }
      match trackAsset now st1 id assetType info with
      | .ok st2 => .ok (info, st2)
      | .error e => .error e

/-- `deleteSession(sessionId)` split at its two filesystem read points:
the first existence/lock check reads `st1`, the metadata double-check and
the removal act on `st2`.  A sequential call uses the same store for both
(`deleteSession`); a concurrent lock acquired between the two reads is an
`st2` differing from `st1`. -/
def deleteSessionAt (now : Nat) (st1 st2 : Store) (id : String) :
    Bool × Store :=
  match assocGet st1 id with
  | none => (true, st2)
  | some _ =>
    let locked1 :=
      match getSession now st1 id with
      | some m => m.locked
      | none => false
    if locked1 then (false, st2)
    else
      match assocGet st2 id with
      | some dir2 =>
        match dir2.meta with
        | some .corrupt => (false, st2)
        | some (.valid m2) =>
          if m2.locked then (false, st2)
          else (true, st2.filter fun p => p.1 ≠ id)
        | none => (true, st2.filter fun p => p.1 ≠ id)
      | none => (true, st2.filter fun p => p.1 ≠ id)

/-- `deleteSession(sessionId)` run without interference. -/
def deleteSession (now : Nat) (st : Store) (id : String) : Bool × Store :=
  deleteSessionAt now st st id

/-- `lockSession(sessionId)`: set the `locked` flag through the metadata
path; all failures (missing/expired session, write failure) are caught and
leave the store unchanged. -/
def lockSession (now : Nat) (st : Store) (id : String) : Store :=
  match getSession now st id with
  | none => st
  | some m =>
    match saveMetadataFS st id { m with locked := true } with
    | .ok st2 => st2
    | .error _ => st

/-- `unlockSession(sessionId)`: clear the `locked` flag; a missing session
returns silently. -/
def unlockSession (now : Nat) (st : Store) (id : String) : Store :=
  match getSession now st id with
  | none => st
  | some m =>
    match saveMetadataFS st id { m with locked := false } with
    | .ok st2 => st2
    | .error _ => st

/-! ## The `saveMetadata` lock protocol

`saveMetadata` wraps its write in `proper-lockfile` with `retries: 10,
minTimeout: 50, maxTimeout: 2000, factor: 2` and releases in a `finally`
block.  The protocol is modelled as an event trace: `lockOk i` says
whether acquisition attempt `i` succeeds, `writeSucceeds` whether the
metadata write succeeds. -/

inductive LockEv where
  | ensureFile
  | delayMs (ms : Nat)
  | acquired
  | wroteMetadata
  | writeFailed
  | released
deriving Repr, DecidableEq

/-- `retries: 10`. -/
def lockRetries : Nat := 10

/-- Backoff before retry number `i + 1` (the `retry` package schedule with
`minTimeout: 50, factor: 2, maxTimeout: 2000`): `min (50 * 2^i) 2000`. -/
def backoffDelay (i : Nat) : Nat := min (50 * 2 ^ i) 2000

/-- The acquisition loop of `lockfile.lock`: try attempt `i`; on failure
sleep the backoff delay and retry, up to `r` more attempts. -/
def tryAcquire (lockOk : Nat → Bool) : Nat → Nat → List LockEv × Option Nat
  | i, 0 => if lockOk i then ([.acquired], some i) else ([], none)
  | i, r + 1 =>
    if lockOk i then ([.acquired], some i)
    else
      let (tr, res) := tryAcquire lockOk (i + 1) r
      (.delayMs (backoffDelay i) :: tr, res)

/-- The event trace and result of one `saveMetadata` call: ensure the
metadata file exists, acquire the lock with bounded backoff retry, write
while holding it, and always release in `finally` — also when the write
fails and the error propagates.  When acquisition itself fails the error
propagates and there is no lock to release. -/
def saveMetadataEvents (lockOk : Nat → Bool) (writeSucceeds : Bool) :
    List LockEv × Except String Unit :=
  let (tr, acq) := tryAcquire lockOk 0 lockRetries
  match acq with
  | none => (.ensureFile :: tr, .error "Lock acquisition failed")
  | some _ =>
    if writeSucceeds then
      (.ensureFile :: tr ++ [.wroteMetadata, .released], .ok ())
    else
      (.ensureFile :: tr ++ [.writeFailed, .released],
       .error "Failed to save metadata")

/-! ## CSS downloader (`css-downloader.js`)

The network is a parameter `Net : String → Option String` (`none` models a
failed fetch after retries).  The per-operation `downloadedUrls` set that
guards circular imports is the `DlSt` state. -/

abbrev Net := String → Option String

/-- One `@import` occurrence: the imported URL and the full matched
declaration text. -/
structure ImportDecl where
  url : String
  fullDecl : String
deriving Repr, DecidableEq

/-- Quote character class `['"]` of the import regex. -/
def isQuoteCh (c : Char) : Bool := c = '\x27' || c = '"'

/-- Match `url\(['"]?([^'"()]+)['"]?\)` at the head of `l` (the shared
shape of the `@import` regex first alternative and of the `url()` regex of
`rewriteRelativeUrls`): returns the captured URL characters and the total
matched length. -/
def matchUrlForm (l : List Char) : Option (List Char × Nat) :=
  if (l.take 4).map Char.toLower = ['u', 'r', 'l', '('] then
    let r1 := l.drop 4
    let q1 := match r1.head? with
      | some c => if isQuoteCh c then 1 else 0
      | none => 0
    let r2 := r1.drop q1
    let body := r2.takeWhile fun c => ¬isQuoteCh c ∧ c ≠ '(' ∧ c ≠ ')'
    if body = [] then none
    else
      let r3 := r2.drop body.length
      let q2 := match r3.head? with
        | some c => if isQuoteCh c then 1 else 0
        | none => 0
      match (r3.drop q2).head? with
      | some ')' => some (body, 4 + q1 + body.length + q2 + 1)
      | _ => none
  else none

/-- Match the second `@import` regex alternative `['"]([^'"]+)['"]` at the
head of `l`. -/
def matchQuoteForm (l : List Char) : Option (List Char × Nat) :=
  match l with
  | [] => none
  | c :: rest =>
    if isQuoteCh c then
      let body := rest.takeWhile fun c2 => ¬isQuoteCh c2
      if body = [] then none
      else
        match (rest.drop body.length).head? with
        | some c2 => if isQuoteCh c2 then some (body, 1 + body.length + 1) else none
        | none => none
    else none

/-- Match the whole import regex
`@import\s+(?:url\(['"]?([^'"()]+)['"]?\)|['"]([^'"]+)['"])`
(case-insensitive) at the head of `l`. -/
def matchImportAt (l : List Char) : Option (List Char × Nat) :=
  if (l.take 7).map Char.toLower = ['@', 'i', 'm', 'p', 'o', 'r', 't'] then
    let r := l.drop 7
    let ws := r.takeWhile (·.isWhitespace)
    if ws = [] then none
    else
      let r2 := r.drop ws.length
      match matchUrlForm r2 with
      | some (u, n) => some (u, 7 + ws.length + n)
      | none =>
        match matchQuoteForm r2 with
        | some (u, n) => some (u, 7 + ws.length + n)
        | none => none
  else none

/-- Scanner for `extractImports` on a character budget (a match consumes
at least one character; a non-match advances by one). -/
def scanImportsGo : Nat → List Char → List ImportDecl
  | 0, _ => []
  | _ + 1, [] => []
  | fuel + 1, c :: rest =>
    match matchImportAt (c :: rest) with
    | some (u, n) =>
      { url := ⟨u⟩, fullDecl := ⟨(c :: rest).take n⟩ } ::
        scanImportsGo fuel (rest.drop (n - 1))
    | none => scanImportsGo fuel rest

/-- The global regex scan of `extractImports`: find every match, advancing
past each matched declaration. -/
def scanImports (l : List Char) : List ImportDecl := scanImportsGo l.length l

/-- `extractImports(css)`: all `@import` declarations with nonempty
trimmed URLs. -/
def extractImports (css : String) : List ImportDecl :=
  (scanImports css.data).filterMap fun d =>
    if trimStr d.url ≠ "" then some { d with url := trimStr d.url } else none

/-- Split an absolute `http(s)` URL into origin (scheme + host) and path
(cut at query/fragment). -/
def splitAbsUrl (base : String) : String × String :=
  let l := base.data
  if strStarts base "http://" ∨ strStarts base "https://" then
    let sl := if strStarts base "https://" then 8 else 7
    let host := (l.drop sl).takeWhile fun c => c ≠ '/' ∧ c ≠ '?' ∧ c ≠ '#'
    (⟨l.take sl ++ host⟩, ⟨cutQF (l.drop (sl + host.length))⟩)
  else (base, "")

/-- Keep a path up to and including its last `/` (`""` when it has none). -/
def dropAfterLastSlash (p : String) : String :=
  ⟨(p.data.reverse.dropWhile (· ≠ '/')).reverse⟩

/-- `new URL(u, base).href` for a relative `u` against an absolute
`http(s)` base (no dot-segment normalization; the sources resolve plain
file references). -/
def resolveRelUrl (u base : String) : String :=
  let (origin, path) := splitAbsUrl base
  if strStarts u "/" then origin ++ u
  else
    let dir := dropAfterLastSlash path
    origin ++ (if dir = "" then "/" else dir) ++ u

/-- The replacement scan of `rewriteRelativeUrls` on a character budget:
rewrite every matched `url(...)` whose target is not a
data/absolute/scheme-relative URL to the resolved absolute URL in single
quotes. -/
def rewriteUrlsGo (base : String) : Nat → List Char → List Char
  | 0, _ => []
  | _ + 1, [] => []
  | fuel + 1, c :: rest =>
    match matchUrlForm (c :: rest) with
    | some (u, n) =>
      let us : String := ⟨u⟩
      if strStarts us "data:" || strStarts us "http" || strStarts us "//" then
        (c :: rest).take n ++ rewriteUrlsGo base fuel (rest.drop (n - 1))
      else
        ("url(\x27" ++ resolveRelUrl us base ++ "\x27)").data ++
          rewriteUrlsGo base fuel (rest.drop (n - 1))
    | none => c :: rewriteUrlsGo base fuel rest

/-- `rewriteRelativeUrls(css, baseUrl)`. -/
def rewriteRelativeUrls (css base : String) : String :=
  ⟨rewriteUrlsGo base css.data.length css.data⟩

/-- The circular-import guard set (`this.downloadedUrls`). -/
structure DlSt where
  downloadedUrls : List String
deriving Repr, DecidableEq

/-- `maxSizeMB: 5`. -/
def cssMaxSizeBytes : Nat := 5 * 1024 * 1024

/-- The URL absolutization at the top of `downloadCSS`. -/
def absolutizeCssUrl (url : String) (baseUrl : Option String) : String :=
  if (match baseUrl with | some b => b ≠ "" | none => false) &&
      !strStarts url "http" && !strStarts url "//" then
    resolveRelUrl url (baseUrl.getD "")
  else if strStarts url "//" then "https:" ++ url
  else url

/-- A successful CSS fetch. -/
structure DlResult where
  content : String
  originalUrl : String
  absoluteUrl : String
deriving Repr, DecidableEq

/-- `downloadCSS(url, baseUrl)`: resolve the URL; return `null` when the
absolute URL was already downloaded (circular import prevention); fetch;
reject oversized responses; record the URL as downloaded. -/
def downloadCSS (net : Net) (url : String) (baseUrl : Option String)
    (st : DlSt) : Except String (Option DlResult) × DlSt :=
  let absoluteUrl := absolutizeCssUrl url baseUrl
  if absoluteUrl ∈ st.downloadedUrls then (.ok none, st)
  else
    match net absoluteUrl with
    | none => (.error ("Failed to download CSS " ++ url), st)
    | some content =>
      if content.utf8ByteSize > cssMaxSizeBytes then
        (.error "CSS file too large", st)
      else
        (.ok (some { content := content, originalUrl := url,
                     absoluteUrl := absoluteUrl }),
         { downloadedUrls := st.downloadedUrls ++ [absoluteUrl] })

/-- `maxImportDepth: 10`. -/
def maxImportDepth : Nat := 10

/-- The per-import loop of `resolveImports`: download each import; splice
the recursively resolved and URL-rewritten content over the declaration;
an already-downloaded (circular) import becomes a single
`/* Could not inline: ... */` marker and a failed download a
`/* Failed to inline: ... */` marker. -/
def goImports (resolveNext : String → String → DlSt → String × DlSt)
    (net : Net) :
    List ImportDecl → String → String → DlSt → String × DlSt
  | [], acc, _, st => (acc, st)
  | d :: ds, acc, baseUrl, st =>
    let (acc2, st2) :=
      match downloadCSS net d.url (some baseUrl) st with
      | (.ok (some dl), st1) =>
        let (inlined, st1) := resolveNext dl.content dl.absoluteUrl st1
        let rewritten := rewriteRelativeUrls inlined dl.absoluteUrl
        (replaceFirstStr acc d.fullDecl
          ("/* Inlined from: " ++ d.url ++ " */\n" ++ rewritten ++
           "\n/* End inlined CSS */"), st1)
      | (.ok none, st1) =>
        (replaceFirstStr acc d.fullDecl
          ("/* Could not inline: " ++ d.url ++ " */"), st1)
      | (.error msg, st1) =>
        (replaceFirstStr acc d.fullDecl
          ("/* Failed to inline: " ++ d.url ++ " - " ++ msg ++ " */"), st1)
    goImports resolveNext net ds acc2 baseUrl st2

/-- `resolveImports(css, baseUrl, depth)` with the recursion rendered on
the fuel `maxImportDepth - depth` (the source stops at `depth >=
maxImportDepth` and recurses at `depth + 1`, so the fuel never runs out
before that check fires). -/
def resolveImportsAux (net : Net) :
    Nat → String → String → Nat → DlSt → String × DlSt
  | 0, css, _, _, st => (css, st)
  | fuel + 1, css, baseUrl, depth, st =>
    if maxImportDepth ≤ depth then (css, st)
    else
      goImports (fun c b st2 => resolveImportsAux net fuel c b (depth + 1) st2)
        net (extractImports css) css baseUrl st

/-- `resolveImports(css, baseUrl, depth)`. -/
def resolveImports (net : Net) (css baseUrl : String) (depth : Nat)
    (st : DlSt) : String × DlSt :=
  resolveImportsAux net (maxImportDepth - depth) css baseUrl depth st

/-- The string-processing core of `downloadAndProcessCSS(sessionId,
cssUrl, baseUrl)`: clear the downloaded set, fetch the main CSS, resolve
all imports recursively from depth 0, rewrite remaining relative URLs;
`null` on failure. -/
def downloadAndResolveCSS (net : Net) (cssUrl : String)
    (baseUrl : Option String) : Option String :=
  match downloadCSS net cssUrl baseUrl { downloadedUrls := [] } with
  | (.ok (some mainCSS), st1) =>
    let (resolved, _) := resolveImports net mainCSS.content mainCSS.absoluteUrl 0 st1
    some (rewriteRelativeUrls resolved mainCSS.absoluteUrl)
  | (.ok none, _) => none
  | (.error _, _) => none

/-! ## Kit export (`exportTemplate`, `mode = "kit"`)

The kit branch assembles zip entries (`template.json`, sanitized
`assets/*`, `manifest.json`) and returns the compressed buffer.  The
compressor (`adm-zip`'s `toBuffer`) is external and is a parameter mapping
the entry list to the resulting byte count; the template/manifest JSON
renderings are string parameters. -/

/-- One raw asset handed to the kit export through `ir.assets`. -/
structure IRAsset where
  path : Option String := none
  src : Option String := none
  content : Option String := none
deriving Repr, DecidableEq

/-- `ir.assets`: either a flat array or categorized collections. -/
inductive IRAssets where
  | arr (l : List IRAsset)
  | cat (images fonts videos : List IRAsset)
deriving Repr, DecidableEq

/-- `String(p || "").replace(..., "_")` with the character class keeping
letters, digits, dot, underscore, slash and dash. -/
def sanitizeZipPath (p : String) : String :=
  ⟨p.data.map fun c =>
    if c.isAlphanum || c = '.' || c = '_' || c = '/' || c = '-' then c
    else '_'⟩

/-- `a || b` on strings (empty is falsy). -/
def jsOrS (a b : String) : String := if a ≠ "" then a else b

/-- `addAsset(p, content)`: the zip entry written for one asset. -/
def addAssetEntry (p content : String) : String × String :=
  ("assets/" ++ sanitizeZipPath p, content)

/-- The asset entries of the kit zip, both supported `ir.assets` shapes. -/
def kitAssetEntries : IRAssets → List (String × String)
  | .arr l =>
    l.map fun a =>
      addAssetEntry (jsOrS (orEmpty a.path) (jsOrS (orEmpty a.src) "asset.bin"))
        (orEmpty a.content)
  | .cat images fonts videos =>
    (images.enum.map fun (i, a) =>
      addAssetEntry
        (jsOrS (orEmpty a.path) (jsOrS (orEmpty a.src) ("image_" ++ toString i ++ ".txt")))
        (jsOrS (orEmpty a.content) (orEmpty a.src))) ++
    (fonts.enum.map fun (i, a) =>
      addAssetEntry (jsOrS (orEmpty a.path) ("font_" ++ toString i ++ ".txt"))
        (orEmpty a.content)) ++
    (videos.enum.map fun (i, a) =>
      addAssetEntry
        (jsOrS (orEmpty a.path) (jsOrS (orEmpty a.src) ("video_" ++ toString i ++ ".txt")))
        (jsOrS (orEmpty a.content) (orEmpty a.src)))

/-- The full entry list of the kit zip. -/
def exportKitEntries (assets : Option IRAssets)
    (templateJson manifestJson : String) : List (String × String) :=
  ("template.json", templateJson) ::
    (match assets with
     | some a => kitAssetEntries a
     | none => []) ++ [("manifest.json", manifestJson)]

/-- The `report` the kit branch returns. -/
structure ExportOut where
  sizeBytes : Nat
  kind : String
  isValid : Bool
  mode : String
deriving Repr, DecidableEq

/-- The kit branch of `exportTemplate`: build the entries, compress, and
return the buffer — unconditionally reported as valid; there is no size
check of any kind between `zip.toBuffer()` and the return. -/
def exportTemplateKit (zipBuffer : List (String × String) → Nat)
    (assets : Option IRAssets) (templateJson manifestJson : String) :
    ExportOut :=
  let entries := exportKitEntries assets templateJson manifestJson
  { sizeBytes := zipBuffer entries, kind := "zip", isValid := true,
    mode := "kit" }

/-- The summed byte sizes of the assets included in the kit
(UTF-8 byte length of each `assets/*` entry). -/
def kitAssetByteSum (assets : Option IRAssets) : Nat :=
  let entries : List (String × String) :=
    match assets with
    | some a => kitAssetEntries a
    | none => []
  (entries.map fun e => e.2.utf8ByteSize).sum

/-! # Theorems -/

/-! ## C7 — content tags always classify as widgets -/

/-- C7: for every node whose tag is in the content-tag list, the
classifier `determineElementorElementType` returns `widget` regardless of
the parent role and of the node's children and layout — such nodes never
become sections or columns. -/
theorem claim_C7 (e : Elem) (parentType : Option String)
    (h : e.tagName ∈ contentTags) :
    determineElementorElementType e parentType = "widget" := by
  obtain ⟨t, cls, attrs, layout, txt, ihtml, atc, ch⟩ := e
  simp only [Elem.tagName] at h
  simp only [contentTags] at h
  fin_cases h <;> rfl

theorem claim_C7_w :
    (Elem.mk "li" "" {} {} "x" "" "" []).tagName ∈ contentTags ∧
      determineElementorElementType (.mk "li" "" {} {} "x" "" "" [])
        (some "section") = "widget" :=
  ⟨by decide, claim_C7 (.mk "li" "" {} {} "x" "" "" []) (some "section") (by decide)⟩

/-! ## C1 — the produced hierarchy

Helper lemmas: `buildWidget` always emits a widget node, and both
normalization maps force the element types the section/column branches
need. -/

theorem buildWidget_elType (am : List AssetImg) (e : Elem) (c : Nat) :
    (buildWidget am e c).1.elType = "widget" := rfl

theorem normSectionChild_col (L : Layout) (c : ENode) (st : ConvSt) :
    (normSectionChild L c st).1.elType = "column" := by
  obtain ⟨i0, t0, w0, s0, e0⟩ := c
  by_cases hc : t0 = "column"
  · simp [normSectionChild, ENode.elType, hc]
  · by_cases hw : t0 = "widget" <;>
      simp [normSectionChild, ENode.elType, freshId, hc, hw]

theorem normSectionChildren_col (L : Layout) :
    ∀ (cs : List ENode) (st : ConvSt) (n : ENode),
      n ∈ (normSectionChildren L cs st).1 → n.elType = "column" := by
  intro cs
  induction cs with
  | nil => intro st n h; simp [normSectionChildren] at h
  | cons c rest ih =>
    intro st n h
    rw [normSectionChildren] at h
    rcases hx : normSectionChild L c st with ⟨c2, st1⟩
    simp only [hx] at h
    rcases hy : normSectionChildren L rest st1 with ⟨rest2, st2⟩
    simp only [hy] at h
    rcases List.mem_cons.mp h with rfl | h1
    · have hcol := normSectionChild_col L c st
      rw [hx] at hcol
      exact hcol
    · exact ih st1 n (by rw [hy]; exact h1)

/-- Any section node produced by `convertElement` has only column
elements (the column-normalization map of the section branch runs before
the node is assembled). -/
theorem convElem_section_cols (am : List AssetImg) (e : Elem)
    (p : Option String) (st : ConvSt) (n : ENode)
    (h : (convElem am e p st).1 = some n) (hs : n.elType = "section") :
    ∀ c ∈ n.elements, c.elType = "column" := by
  obtain ⟨t, cls, attrs, layout, txt, ihtml, atc, ch⟩ := e
  rw [convElem] at h
  split at h
  · -- section branch
    repeat' split at h
    rename_i hnorm
    injection h with h
    subst h
    intro c hc
    simp only [ENode.elements] at hc
    exact normSectionChildren_col _ _ _ c (by rw [hnorm]; exact hc)
  · -- column branch
    repeat' split at h
    injection h with h
    subst h
    simp only [ENode.elType] at hs
    exact absurd hs (by decide)
  · -- widget branch
    repeat' split at h
    rename_i hbw
    injection h with h
    subst h
    have hw := congrArg (fun q => (Prod.fst q).elType) hbw
    dsimp only at hw
    rw [buildWidget_elType] at hw
    rw [← hw] at hs
    exact absurd hs (by decide)
  · -- default branch: no node
    simp at h

/-- C1, amended: every element of the content list produced by
`convertStructureToElementor` is a section node whose `elements` contain
only column nodes.  The deeper halves of the claimed invariant do not hold
(see `claim_C1_cex`): injected image widgets can leave a widget with
non-empty `elements`, and a wrapped non-section root can put a column
inside a column. -/
theorem claim_C1 (am : List AssetImg) (s : Option Elem) (st : ConvSt) :
    ∀ nd ∈ (convertStructureToElementor am s st).1,
      nd.elType = "section" ∧ ∀ c ∈ nd.elements, c.elType = "column" := by
  match s with
  | none => intro nd h; simp [convertStructureToElementor] at h
  | some e =>
    intro nd h
    rw [convertStructureToElementor] at h
    rcases heq : (convElem am e none st) with ⟨root, st2⟩
    rw [heq] at h
    match hroot : root with
    | none =>
      simp only [hroot] at h
      rcases List.mem_singleton.mp h with rfl
      refine ⟨rfl, ?_⟩
      intro c hc
      rcases List.mem_singleton.mp (by simpa [ENode.elements] using hc) with rfl
      rfl
    | some rootNode =>
      simp only [hroot] at h
      by_cases hsec : rootNode.elType = "section"
      · rw [if_neg (by simp [hsec])] at h
        rcases List.mem_singleton.mp h with rfl
        refine ⟨hsec, ?_⟩
        exact convElem_section_cols am e none st nd (by rw [heq]) hsec
      · rw [if_pos (by simp [hsec])] at h
        rcases List.mem_singleton.mp h with rfl
        refine ⟨rfl, ?_⟩
        intro c hc
        rcases List.mem_singleton.mp (by simpa [ENode.elements] using hc) with rfl
        rfl

/-- Counterexample input: a `section` with a single `img` child.  The
converted child is a widget; the extracted image widgets are pushed into
its `elements` before column normalization, so the final template holds a
widget with non-empty `elements`. -/
def c1Img : Elem := .mk "img" "" { src := some "http://x.com/a.png" } {} "" "" "" []

def c1Sec : Elem := .mk "section" "" {} {} "" "" "" [c1Img]

/-- C1 counterexample: the full claimed invariant (sections hold only
columns, columns only widgets, widgets nothing) is false on
`<section><img></section>`, even though the top level is all sections. -/
theorem claim_C1_cex :
    contentHierOk (convertStructureToElementor [] (some c1Sec) ⟨0, none⟩).1 = false ∧
    ((convertStructureToElementor [] (some c1Sec) ⟨0, none⟩).1.all
      fun n => n.elType == "section") = true := by
  constructor
  · decide
  · decide

theorem claim_C1_w :
    ((convertStructureToElementor [] (some c1Sec) ⟨0, none⟩).1.head!).elType
      = "section" := by
  have hne : (convertStructureToElementor [] (some c1Sec) ⟨0, none⟩).1 ≠ [] := by
    have hlen :
        ((convertStructureToElementor [] (some c1Sec) ⟨0, none⟩).1).length = 1 := by
      decide
    intro h
    rw [h] at hlen
    exact absurd hlen (by decide)
  exact (claim_C1 [] (some c1Sec) ⟨0, none⟩ _ (List.head!_mem_self hne)).1

/-! ## C2 — lock safety of `deleteSession`, and C10 — TTL expiry -/

theorem assocGet_set_self {α : Type} (l : List (String × α)) (k : String)
    (v : α) : assocGet (assocSet l k v) k = some v := by
  induction l with
  | nil => simp [assocSet, assocGet]
  | cons hd tl ih =>
    obtain ⟨k0, v0⟩ := hd
    by_cases h : k0 = k <;> simp [assocSet, assocGet, h, ih]

theorem assocGet_filter_none {α : Type} (f : String × α → Bool)
    (l : List (String × α)) (id : String) (hf : ∀ v, f (id, v) = false) :
    assocGet (l.filter f) id = none := by
  induction l with
  | nil => rfl
  | cons hd tl ih =>
    obtain ⟨k0, v0⟩ := hd
    rw [List.filter_cons]
    by_cases hk : f (k0, v0) = true
    · rw [if_pos hk]
      have hne : k0 ≠ id := by
        intro he
        subst he
        rw [hf v0] at hk
        exact Bool.false_ne_true hk
      simp [assocGet, hne, ih]
    · rw [if_neg hk]
      exact ih

/-- C2: on an existing, non-expired session, `lockSession` then
`deleteSession` returns `false` and leaves the session directory in place;
`deleteSession` re-reads the metadata file immediately before removal and
returns `false` (removing nothing) whenever that second read shows
`locked = true`, whatever happened between the two reads; and
`unlockSession` then `deleteSession` returns `true` and removes the
directory. -/
theorem claim_C2 (now : Nat) (st : Store) (id : String) (dir : SessDir)
    (m : Metadata) (hdir : assocGet st id = some dir)
    (hmeta : dir.meta = some (.valid m)) (hexp : ¬m.expiresAt < now) :
    deleteSession now (lockSession now st id) id =
      (false, lockSession now st id) ∧
    (assocGet (lockSession now st id) id).isSome = true ∧
    (deleteSession now (unlockSession now (lockSession now st id) id) id).1 =
      true ∧
    assocGet
      (deleteSession now (unlockSession now (lockSession now st id) id) id).2
      id = none ∧
    (∀ (stX : Store) (dirX : SessDir) (mX : Metadata),
      assocGet stX id = some dirX → dirX.meta = some (.valid mX) →
      mX.locked = true → deleteSessionAt now st stX id = (false, stX)) := by
  have hget : getSession now st id = some m := by
    simp [getSession, hdir, hmeta, hexp]
  have hg1 : getSession now
      (assocSet st id { dir with meta := some (.valid { m with locked := true }) })
      id = some { m with locked := true } := by
    simp [getSession, assocGet_set_self, hexp]
  have hlock : lockSession now st id =
      assocSet st id { dir with meta := some (.valid { m with locked := true }) } := by
    simp [lockSession, hget, saveMetadataFS, hdir]
  have hunlock : unlockSession now (lockSession now st id) id =
      assocSet (assocSet st id
          { dir with meta := some (.valid { m with locked := true }) }) id
        { dir with meta := some (.valid { m with locked := false }) } := by
    rw [hlock]
    simp [unlockSession, hg1, saveMetadataFS, assocGet_set_self]
  have hg2 : getSession now
      (assocSet (assocSet st id
          { dir with meta := some (.valid { m with locked := true }) }) id
        { dir with meta := some (.valid { m with locked := false }) })
      id = some { m with locked := false } := by
    simp [getSession, assocGet_set_self, hexp]
  refine ⟨?_, ?_, ?_, ?_, ?_⟩
  · -- locked delete is refused and changes nothing
    rw [deleteSession, hlock, deleteSessionAt]
    simp [assocGet_set_self, hg1]
  · rw [hlock]
    simp [assocGet_set_self]
  · -- unlock then delete succeeds
    rw [hunlock, deleteSession, deleteSessionAt]
    simp [assocGet_set_self, hg2]
  · rw [hunlock, deleteSession, deleteSessionAt]
    simp [assocGet_set_self, hg2]
    exact assocGet_filter_none (fun p => !decide (p.1 = id)) _ id
      (fun v => by simp)
  · -- the double check blocks a lock acquired between the two reads
    intro stX dirX mX hdX hmX hlX
    rw [deleteSessionAt, hdir]
    by_cases hml : m.locked
    · simp [hget, hml]
    · simp [hget, hml, hdX, hmX, hlX]

/-- C10: a session whose `expiresAt` is past reads as absent
(`getSession` is `null` though the metadata file is still on disk), so
`saveAsset` and `trackAsset` fail with the "not found or expired" error
without changing anything, and `lockSession` cannot set the locked flag. -/
theorem claim_C10 (now : Nat) (st : Store) (id : String) (dir : SessDir)
    (m : Metadata) (hdir : assocGet st id = some dir)
    (hmeta : dir.meta = some (.valid m)) (hexp : m.expiresAt < now) :
    getSession now st id = none ∧
    (∀ assetType filename dataLen,
      saveAsset now st id assetType filename dataLen =
        .error ("Session " ++ id ++ " not found or expired")) ∧
    (∀ assetType info,
      trackAsset now st id assetType info =
        .error ("Session " ++ id ++ " not found or expired")) ∧
    lockSession now st id = st := by
  have hget : getSession now st id = none := by
    simp [getSession, hdir, hmeta, hexp]
  exact ⟨hget,
    fun assetType filename dataLen => by simp [saveAsset, hget],
    fun assetType info => by simp [trackAsset, hget],
    by simp [lockSession, hget]⟩

/-- A concrete session store shared by the C2 and C10 witnesses. -/
def s2Meta : Metadata :=
  { sessionId := "s1", createdAt := 0, expiresAt := 100, locked := false,
    assets := [("images", [])] }

def s2Dir : SessDir := { meta := some (.valid s2Meta) }

def s2Store : Store := [("s1", s2Dir)]

theorem claim_C2_w :
    (¬s2Meta.expiresAt < 5) ∧
    deleteSession 5 (lockSession 5 s2Store "s1") "s1" =
      (false, lockSession 5 s2Store "s1") ∧
    (deleteSession 5 (unlockSession 5 (lockSession 5 s2Store "s1") "s1")
      "s1").1 = true :=
  have h := claim_C2 5 s2Store "s1" s2Dir s2Meta rfl rfl (by decide)
  ⟨by decide, h.1, h.2.2.1⟩

theorem claim_C10_w :
    s2Meta.expiresAt < 200 ∧
    getSession 200 s2Store "s1" = none ∧
    saveAsset 200 s2Store "s1" "images" "a.png" 10 =
      .error "Session s1 not found or expired" ∧
    lockSession 200 s2Store "s1" = s2Store :=
  have h := claim_C10 200 s2Store "s1" s2Dir s2Meta rfl rfl (by decide)
  ⟨by decide, h.1, by simpa using h.2.1 "images" "a.png" 10, h.2.2.2⟩

/-! ## C3 — the `saveMetadata` lock protocol -/

/-- The acquisition loop either succeeds at the first available attempt
`i + n` within the retry budget, after exactly the capped-exponential
backoff delays of the earlier attempts, or exhausts the budget with a
delay per retry and no acquisition. -/
theorem range_succ_shift {β : Type} (g : Nat → β) (n : Nat) :
    (List.range (n + 1)).map g = g 0 :: ((List.range n).map fun t => g (t + 1)) := by
  rw [List.range_succ_eq_map]
  simp [List.map_map, Function.comp]

theorem delays_shift (i n : Nat) :
    ((List.range (n + 1)).map fun t => LockEv.delayMs (backoffDelay (i + t))) =
      LockEv.delayMs (backoffDelay i) ::
        ((List.range n).map fun t => LockEv.delayMs (backoffDelay (i + 1 + t))) := by
  rw [range_succ_shift (fun t => LockEv.delayMs (backoffDelay (i + t))) n]
  congr 1
  apply List.map_congr_left
  intro a _
  have hieq : i + (a + 1) = i + 1 + a := by omega
  rw [hieq]

theorem tryAcquire_spec (lockOk : Nat → Bool) :
    ∀ (r i : Nat),
      (∃ n, n ≤ r ∧ lockOk (i + n) = true ∧
        tryAcquire lockOk i r =
          (((List.range n).map fun t => LockEv.delayMs (backoffDelay (i + t))) ++
            [LockEv.acquired], some (i + n))) ∨
      ((∀ j, j ≤ r → lockOk (i + j) = false) ∧
        tryAcquire lockOk i r =
          ((List.range r).map fun t => LockEv.delayMs (backoffDelay (i + t)),
            none)) := by
  intro r
  induction r with
  | zero =>
    intro i
    by_cases h : lockOk i
    · exact Or.inl ⟨0, Nat.le_refl 0, by simpa using h, by simp [tryAcquire, h]⟩
    · refine Or.inr ⟨?_, by simp [tryAcquire, h]⟩
      intro j hj
      rcases Nat.le_zero.mp hj with rfl
      simpa using h
  | succ r ih =>
    intro i
    by_cases h : lockOk i
    · exact Or.inl ⟨0, Nat.zero_le _, by simpa using h, by simp [tryAcquire, h]⟩
    · rcases ih (i + 1) with ⟨n, hn, hok, heq⟩ | ⟨hall, heq⟩
      · refine Or.inl ⟨n + 1, by omega, ?_, ?_⟩
        · rw [show i + (n + 1) = i + 1 + n from by omega]
          exact hok
        · rw [tryAcquire, if_neg (by simp [h]), heq, delays_shift,
            show i + (n + 1) = i + 1 + n from by omega]
          simp
      · refine Or.inr ⟨?_, ?_⟩
        · intro j hj
          cases j with
          | zero => simpa using h
          | succ k =>
            rw [show i + (k + 1) = i + 1 + k from by omega]
            exact hall k (by omega)
        · rw [tryAcquire, if_neg (by simp [h]), heq, delays_shift]

/-- C3: every `saveMetadata` call acquires the metadata file lock with at
most `lockRetries = 10` retries and the capped exponentially increasing
delay schedule `min (50 * 2^i) 2000`; when the lock is acquired the
metadata write happens between `acquired` and `released` and the lock is
released on every path — also when the write fails and the error
propagates; every `acquired` event is matched by a `released` event. -/
theorem claim_C3 (lockOk : Nat → Bool) (writeSucceeds : Bool) :
    ((saveMetadataEvents lockOk writeSucceeds).1.count LockEv.released =
      (saveMetadataEvents lockOk writeSucceeds).1.count LockEv.acquired) ∧
    ((∃ n, n ≤ lockRetries ∧
        (saveMetadataEvents lockOk writeSucceeds).1 =
          LockEv.ensureFile ::
            (((List.range n).map fun i => LockEv.delayMs (backoffDelay i)) ++
              [LockEv.acquired] ++
              (if writeSucceeds then [LockEv.wroteMetadata, LockEv.released]
               else [LockEv.writeFailed, LockEv.released])) ∧
        ((saveMetadataEvents lockOk writeSucceeds).2 = .ok () ↔
          writeSucceeds = true)) ∨
      ((saveMetadataEvents lockOk writeSucceeds).1 =
        LockEv.ensureFile ::
          ((List.range lockRetries).map fun i =>
            LockEv.delayMs (backoffDelay i)) ∧
        (saveMetadataEvents lockOk writeSucceeds).2 =
          .error "Lock acquisition failed")) ∧
    (∀ i, backoffDelay i = min (50 * 2 ^ i) 2000) := by
  have hcount : ∀ (ev : LockEv) (l : List Nat),
      (∀ ms, ev ≠ LockEv.delayMs ms) →
      (l.map fun t => LockEv.delayMs (backoffDelay t)).count ev = 0 := by
    intro ev l hne
    rw [List.count_eq_zero]
    intro hmem
    rcases List.mem_map.mp hmem with ⟨a, _, ha⟩
    exact hne (backoffDelay a) ha.symm
  have hs := tryAcquire_spec lockOk lockRetries 0
  rcases hs with ⟨n, hn, hok, heq⟩ | ⟨hall, heq⟩
  · have heq0 : tryAcquire lockOk 0 lockRetries =
        (((List.range n).map fun t => LockEv.delayMs (backoffDelay t)) ++
          [LockEv.acquired], some n) := by
      rw [heq]
      simp
    have htr : saveMetadataEvents lockOk writeSucceeds =
        (LockEv.ensureFile ::
          (((List.range n).map fun i => LockEv.delayMs (backoffDelay i)) ++
            [LockEv.acquired] ++
            (if writeSucceeds then [LockEv.wroteMetadata, LockEv.released]
             else [LockEv.writeFailed, LockEv.released])),
         if writeSucceeds then .ok () else .error "Failed to save metadata") := by
      rw [saveMetadataEvents, heq0]
      cases writeSucceeds <;> simp
    have hrel := hcount LockEv.released (List.range n) (by intro ms hh; cases hh)
    have hacq := hcount LockEv.acquired (List.range n) (by intro ms hh; cases hh)
    refine ⟨?_, Or.inl ⟨n, hn, ?_, ?_⟩, fun i => rfl⟩
    · rw [htr]
      cases writeSucceeds <;>
        simp [List.count_cons, List.count_append, hrel, hacq]
    · rw [htr]
    · rw [htr]
      cases writeSucceeds <;> simp
  · have heq0 : tryAcquire lockOk 0 lockRetries =
        ((List.range lockRetries).map fun t =>
          LockEv.delayMs (backoffDelay t), none) := by
      rw [heq]
      simp
    have htr : saveMetadataEvents lockOk writeSucceeds =
        (LockEv.ensureFile ::
          ((List.range lockRetries).map fun i =>
            LockEv.delayMs (backoffDelay i)),
         .error "Lock acquisition failed") := by
      rw [saveMetadataEvents, heq0]
    have hrel := hcount LockEv.released (List.range lockRetries)
      (by intro ms hh; cases hh)
    have hacq := hcount LockEv.acquired (List.range lockRetries)
      (by intro ms hh; cases hh)
    refine ⟨?_, Or.inr ⟨?_, ?_⟩, fun i => rfl⟩
    · rw [htr]
      simp [List.count_cons, hrel, hacq]
    · rw [htr]
    · rw [htr]

/-! ## C4 — kit export has no packaging-size check -/

/-- C4, amended: `exportTemplate` in kit mode performs no size
validation: for every compressor outcome and asset set it returns the
assembled ZIP with `kind = "zip"`, `isValid = true` and `size` equal to
whatever byte count the compressor produced — there is no packaging-size
error path. -/
theorem claim_C4 (zipBuffer : List (String × String) → Nat)
    (assets : Option IRAssets) (templateJson manifestJson : String) :
    (exportTemplateKit zipBuffer assets templateJson manifestJson).kind = "zip" ∧
    (exportTemplateKit zipBuffer assets templateJson manifestJson).isValid = true ∧
    (exportTemplateKit zipBuffer assets templateJson manifestJson).sizeBytes =
      zipBuffer (exportKitEntries assets templateJson manifestJson) :=
  ⟨rfl, rfl, rfl⟩

/-- Two images of 100 bytes each for the C4 counterexample. -/
def c4Assets : IRAssets :=
  .cat [{ path := some "a.png", content := some ⟨List.replicate 100 'a'⟩ },
        { path := some "b.png", content := some ⟨List.replicate 100 'b'⟩ }]
    [] []

/-- A compressor outcome far below 90% of the asset bytes (deflate output
on compressible data can be arbitrarily small). -/
def c4Zip : List (String × String) → Nat := fun _ => 10

/-- C4 counterexample: a kit export whose ZIP is 10 bytes against 200
bytes of included assets (ratio 5%, far below 90%) is returned as a valid
ZIP instead of failing with a packaging-size error. -/
theorem claim_C4_cex :
    exportTemplateKit c4Zip (some c4Assets) "" "" =
      { sizeBytes := 10, kind := "zip", isValid := true, mode := "kit" } ∧
    kitAssetByteSum (some c4Assets) = 200 ∧
    (exportTemplateKit c4Zip (some c4Assets) "" "").sizeBytes * 10 <
      kitAssetByteSum (some c4Assets) * 9 := by
  refine ⟨rfl, ?_, ?_⟩ <;> decide

/-! ## C6 — `resolveImports` termination and the import-cycle marker -/

/-- The circular-import network of the C6 scenario: `a.css` imports
`b.css` and `b.css` imports `a.css`. -/
def cssCycleNet : Net := fun u =>
  if u = "http://site.com/a.css" then
    some "@import url(http://site.com/b.css);\nbody-a-rule"
  else if u = "http://site.com/b.css" then
    some "@import url(http://site.com/a.css);\nbody-b-rule"
  else none

set_option maxRecDepth 100000 in
set_option maxHeartbeats 1000000 in
/-- C6: `resolveImports` is total (it is a terminating function of the
fuel `maxImportDepth - depth`); a call at or beyond `maxImportDepth = 10`
returns its input unchanged, bounding the recursion depth; and on the
circular chain `a.css → b.css → a.css` the pipeline terminates with the
repeated import replaced by exactly one `Could not inline` comment marker
instead of looping or aborting the CSS. -/
theorem claim_C6 :
    maxImportDepth = 10 ∧
    (∀ (net : Net) (css baseUrl : String) (depth : Nat) (st : DlSt),
      maxImportDepth ≤ depth →
      resolveImports net css baseUrl depth st = (css, st)) ∧
    (downloadAndResolveCSS cssCycleNet "http://site.com/a.css" none).isSome =
      true ∧
    countOccStr
      ((downloadAndResolveCSS cssCycleNet "http://site.com/a.css" none).getD "")
      "Could not inline" = 1 := by
  refine ⟨rfl, ?_, by decide, by decide⟩
  intro net css baseUrl depth st h
  have h0 : maxImportDepth - depth = 0 := Nat.sub_eq_zero_of_le h
  rw [resolveImports, h0]
  rfl

theorem claim_C6_w :
    maxImportDepth ≤ 12 ∧
    resolveImports (fun _ => none) "x-css" "http://b.example/" 12
      { downloadedUrls := [] } = ("x-css", { downloadedUrls := [] }) :=
  ⟨by decide, claim_C6.2.1 (fun _ => none) "x-css" "http://b.example/" 12
    { downloadedUrls := [] } (by decide)⟩

/-! ## C5 — the three-tier asset matcher -/

theorem find_unique {α : Type} (p : α → Bool) (l : List α) (d : α)
    (hd : d ∈ l) (hp : p d = true) (hu : (l.filter p).length ≤ 1) :
    l.find? p = some d := by
  induction l with
  | nil => cases hd
  | cons a tl ih =>
    by_cases ha : p a = true
    · rw [List.find?_cons_of_pos _ ha]
      rcases List.mem_cons.mp hd with rfl | hdt
      · rfl
      · exfalso
        have hmem : d ∈ tl.filter p := List.mem_filter.mpr ⟨hdt, hp⟩
        have hpos : 0 < (tl.filter p).length :=
          List.length_pos.mpr (List.ne_nil_of_mem hmem)
        rw [List.filter_cons_of_pos ha, List.length_cons] at hu
        omega
    · rw [List.find?_cons_of_neg _ ha]
      refine ih ?_ ?_
      · rcases List.mem_cons.mp hd with rfl | hdt
        · exact absurd hp ha
        · exact hdt
      · rw [List.filter_cons_of_neg ha] at hu
        exact hu

/-- C5, amended: `findMatchingAsset` tries its three tiers in order
(exact, normalized, trailing filename), returns the first tier's match,
and returns `null` when no tier matches; the claimed tier-2 determinism
(a query differing from a stored URL only by the query string finds the
same descriptor as an exact query on the bare URL) holds provided at most
one asset in the list has a normalized original or absolute URL equal to
the bare URL's normalized form — without that uniqueness it fails, see
the counterexample. -/
theorem claim_C5 (u : String) (assets : List AssetImg) (d : AssetImg) :
    (u ≠ "" → assets ≠ [] → findAssetTier1 u assets = some d →
      findMatchingAsset u assets = some d) ∧
    (u ≠ "" → assets ≠ [] → findAssetTier1 u assets = none →
      findAssetTier2 u assets = some d →
      findMatchingAsset u assets = some d) ∧
    (u ≠ "" → assets ≠ [] → findAssetTier1 u assets = none →
      findAssetTier2 u assets = none →
      findMatchingAsset u assets = findAssetTier3 u assets) ∧
    (findAssetTier1 u assets = none → findAssetTier2 u assets = none →
      findAssetTier3 u assets = none → findMatchingAsset u assets = none) ∧
    (∀ bare suffix : String,
      u = bare ++ "?" ++ suffix →
      normalizeUrl u = normalizeUrl bare →
      (assets.filter fun img =>
        normalizeUrl img.originalUrl = normalizeUrl bare ∨
        normalizeUrlOpt img.absoluteUrl = normalizeUrl bare).length ≤ 1 →
      findAssetTier1 bare assets = some d →
      findAssetTier2 u assets = some d) := by
  refine ⟨?_, ?_, ?_, ?_, ?_⟩
  · intro hu ha h1
    simp [findMatchingAsset, hu, ha, h1]
  · intro hu ha h1 h2
    simp [findMatchingAsset, hu, ha, h1, h2]
  · intro hu ha h1 h2
    simp [findMatchingAsset, hu, ha, h1, h2]
  · intro h1 h2 h3
    by_cases hu : u = ""
    · simp [findMatchingAsset, hu]
    · by_cases ha : assets = []
      · simp [findMatchingAsset, ha]
      · simp [findMatchingAsset, hu, ha, h1, h2, h3]
  · intro bare suffix hq hnorm huniq h1
    have hd := List.mem_of_find?_eq_some h1
    have hp := List.find?_some h1
    have hpred : d.originalUrl = bare ∨ d.absoluteUrl = some bare := by
      simpa using hp
    have hmatch : (normalizeUrl d.originalUrl = normalizeUrl bare ∨
        normalizeUrlOpt d.absoluteUrl = normalizeUrl bare) := by
      rcases hpred with h | h
      · exact Or.inl (by rw [h])
      · exact Or.inr (by rw [h]; rfl)
    rw [findAssetTier2]
    simp only [hnorm]
    exact find_unique _ assets d hd (by simpa using hmatch) huniq

/-- Two stored assets sharing a pathname: the bare URL and a
query-string variant of it. -/
def c5A : AssetImg :=
  { originalUrl := "http://x.com/img.png?v=1", absoluteUrl := none,
    localUrl := "/api/assets/s/images/a.png" }

def c5B : AssetImg :=
  { originalUrl := "http://x.com/img.png", absoluteUrl := none,
    localUrl := "/api/assets/s/images/b.png" }

/-- C5 counterexample: the query `http://x.com/img.png?v=2` differs from
the stored `http://x.com/img.png` only by its query string, yet tier-2
returns the first pathname match (`c5A`) while the exact query on the bare
URL returns `c5B` — the claimed determinism is false as stated. -/
theorem claim_C5_cex :
    "http://x.com/img.png?v=2" = c5B.originalUrl ++ "?" ++ "v=2" ∧
    findAssetTier1 "http://x.com/img.png" [c5A, c5B] = some c5B ∧
    findAssetTier2 "http://x.com/img.png?v=2" [c5A, c5B] = some c5A ∧
    findMatchingAsset "http://x.com/img.png" [c5A, c5B] = some c5B ∧
    findMatchingAsset "http://x.com/img.png?v=2" [c5A, c5B] = some c5A ∧
    c5A ≠ c5B := by
  refine ⟨?_, ?_, ?_, ?_, ?_, ?_⟩ <;> decide

/-- A single stored asset, for the witness. -/
def c5W : AssetImg :=
  { originalUrl := "http://y.com/p.png", absoluteUrl := none,
    localUrl := "/api/assets/s/images/p.png" }

theorem claim_C5_w :
    findAssetTier1 "http://y.com/p.png" [c5W] = some c5W ∧
    findAssetTier2 "http://y.com/p.png?q=1" [c5W] = some c5W :=
  ⟨by decide,
    (claim_C5 "http://y.com/p.png?q=1" [c5W] c5W).2.2.2.2 "http://y.com/p.png"
      "q=1" (by decide) (by decide) (by decide) (by decide)⟩

/-! ## C8 — how the two link detectors match their keyword sets -/

/-- C8, amended: the class-name keyword sets of both detectors are
matched whole-word (case-insensitive `\b...\b` regexes), so a keyword that
occurs only inside a longer word cannot fire the class checks — without a
button tag or strong button styling, `isButtonLike` stays false.  The nav
**text** phrases, however, are matched by plain substring containment
(`textContent.includes(pattern)`), and together with a relative or
nav-shaped href such a substring occurrence does trigger
`isNavigationLink` (see the counterexample). -/
theorem claim_C8 :
    (∀ e : Elem,
      hasButtonClass e.className = false → isButtonTag e = false →
      hasStrongButtonStyling e.layout = false → isButtonLike e = false) ∧
    (∀ e : Elem,
      isNavigationLink e = true ↔
        (isPlaceholderHref (orEmpty e.attributes.href) = true ∨
         hasNavClass e.className = true ∨
         (hasNavText (trimStr (toLowerStr e.textContent)) = true ∧
          (hasNavUrlShape (orEmpty e.attributes.href) = true ∨
           strStarts (orEmpty e.attributes.href) "/" = true)) ∨
         hasNavUrlShape (orEmpty e.attributes.href) = true)) ∧
    wholeWordHit "attraction banner" "action" = false ∧
    containsSub "attraction banner" "action" = true ∧
    isButtonLike (.mk "a" "attraction banner" { href := some "http://x.com/b" }
      {} "go" "" "" []) = false ∧
    wholeWordHit "cta-button primary" "button" = true := by
  refine ⟨?_, ?_, by decide, by decide, by decide, by decide⟩
  · intro e h1 h2 h3
    simp [isButtonLike, h1, h2, h3]
  · intro e
    simp only [isNavigationLink]
    by_cases h1 : isPlaceholderHref (orEmpty e.attributes.href) <;>
      by_cases h2 : hasNavClass e.className <;>
      by_cases h3 : hasNavText (trimStr (toLowerStr e.textContent)) <;>
      by_cases h4 : hasNavUrlShape (orEmpty e.attributes.href) <;>
      by_cases h5 : strStarts (orEmpty e.attributes.href) "/" <;>
      simp [h1, h2, h3, h4, h5]

/-- The C8 counterexample element: link text "Welcome Homeowners" holds
the nav phrase "home" only inside the longer word "homeowners", the class
is empty, and the href is relative without any nav URL shape. -/
def c8El : Elem :=
  .mk "a" "" { href := some "/welcome-homeowners" } {} "Welcome Homeowners"
    "" "" []

/-- C8 counterexample: no keyword occurs as a whole word anywhere on this
element (both keyword sets checked), the href is neither empty nor a
placeholder nor nav-shaped — yet `isNavigationLink` fires, because "home"
occurs as a substring of "homeowners" and the href is relative.  The
claimed whole-word-only matching is false for the text patterns. -/
theorem claim_C8_cex :
    isNavigationLink c8El = true ∧
    (navTextPatterns.all fun p =>
      !wholeWordHit (trimStr (toLowerStr c8El.textContent)) p) = true ∧
    (navClasses.all fun p => !wholeWordHit c8El.className p) = true ∧
    (buttonClasses.all fun p => !wholeWordHit c8El.className p) = true ∧
    isPlaceholderHref (orEmpty c8El.attributes.href) = false ∧
    hasNavUrlShape (orEmpty c8El.attributes.href) = false := by
  refine ⟨?_, ?_, ?_, ?_, ?_, ?_⟩ <;> decide

/-- A concrete element with no whole-word CTA keyword, no button tag and
no strong styling, for the C8 witness. -/
def c8Btn : Elem :=
  .mk "a" "my-attraction banner" { href := some "http://x.com/go" } {}
    "go there" "" "" []

theorem claim_C8_w :
    hasButtonClass c8Btn.className = false ∧
    isButtonTag c8Btn = false ∧
    hasStrongButtonStyling c8Btn.layout = false ∧
    isButtonLike c8Btn = false :=
  ⟨by decide, by decide, by decide,
    claim_C8.1 c8Btn (by decide) (by decide) (by decide)⟩

/-! ## C9 — absent style fields and the style translator -/

/-- Every settings key the style translator can write. -/
def styledKeys : List String :=
  ["typography_typography", "typography_font_family", "typography_font_size",
   "typography_font_weight", "typography_line_height", "title_color",
   "text_color", "button_text_color", "button_background_color",
   "_background_background", "_background_color", "_margin", "_padding",
   "_border_border", "_border_width", "_border_color", "_border_radius",
   "_box_shadow_box_shadow_type", "_box_shadow_box_shadow", "align",
   "width", "height"]

theorem applyElementStyles_settings (w : ENode) (layout : Layout) :
    (applyElementStyles w layout).settings =
      styleSize w.widgetType layout (styleAlign layout (styleShadow layout
        (styleBorders layout (styleSpacing layout (styleColors w.widgetType
          layout (styleTypography layout w.settings)))))) := by
  obtain ⟨i, t, wt, s, els⟩ := w
  rfl

/-- C9, amended: in `applyElementStyles` every settings key is written
only when its governing layout field is present — an absent field leaves
the corresponding key exactly as it was (and keys outside the style
translator's key set are never touched); `buildWidget`, however, fills
`align` and `typography_typography` with fixed defaults (`"left"` /
`"custom"` for headings) even when `textAlign` and all typography fields
are absent, so the claim does not extend to those per-widget base keys. -/
theorem claim_C9 (layout : Layout) (w : ENode) :
    (truthy layout.fontFamily = false → truthy layout.fontSize = false →
      truthy layout.fontWeight = false → truthy layout.lineHeight = false →
      getKey (applyElementStyles w layout).settings "typography_typography" =
        getKey w.settings "typography_typography") ∧
    (truthy layout.fontFamily = false →
      getKey (applyElementStyles w layout).settings "typography_font_family" =
        getKey w.settings "typography_font_family") ∧
    (truthy layout.fontSize = false →
      getKey (applyElementStyles w layout).settings "typography_font_size" =
        getKey w.settings "typography_font_size") ∧
    (truthy layout.fontWeight = false →
      getKey (applyElementStyles w layout).settings "typography_font_weight" =
        getKey w.settings "typography_font_weight") ∧
    (truthy layout.lineHeight = false →
      getKey (applyElementStyles w layout).settings "typography_line_height" =
        getKey w.settings "typography_line_height") ∧
    (¬(truthy layout.color = true ∧ orEmpty layout.color ≠ "rgb(0, 0, 0)") →
      getKey (applyElementStyles w layout).settings "title_color" =
        getKey w.settings "title_color" ∧
      getKey (applyElementStyles w layout).settings "text_color" =
        getKey w.settings "text_color" ∧
      getKey (applyElementStyles w layout).settings "button_text_color" =
        getKey w.settings "button_text_color") ∧
    (¬(truthy layout.backgroundColor = true ∧
        orEmpty layout.backgroundColor ≠ "rgba(0, 0, 0, 0)" ∧
        orEmpty layout.backgroundColor ≠ "transparent") →
      getKey (applyElementStyles w layout).settings "button_background_color" =
        getKey w.settings "button_background_color" ∧
      getKey (applyElementStyles w layout).settings "_background_background" =
        getKey w.settings "_background_background" ∧
      getKey (applyElementStyles w layout).settings "_background_color" =
        getKey w.settings "_background_color") ∧
    (spacingTruthy layout.margin = false →
      getKey (applyElementStyles w layout).settings "_margin" =
        getKey w.settings "_margin") ∧
    (spacingTruthy layout.padding = false →
      getKey (applyElementStyles w layout).settings "_padding" =
        getKey w.settings "_padding") ∧
    (¬(truthy layout.border = true ∧ orEmpty layout.border ≠ "none") →
      getKey (applyElementStyles w layout).settings "_border_border" =
        getKey w.settings "_border_border" ∧
      getKey (applyElementStyles w layout).settings "_border_width" =
        getKey w.settings "_border_width" ∧
      getKey (applyElementStyles w layout).settings "_border_color" =
        getKey w.settings "_border_color") ∧
    (truthy layout.borderRadius = false →
      getKey (applyElementStyles w layout).settings "_border_radius" =
        getKey w.settings "_border_radius") ∧
    (¬(truthy layout.boxShadow = true ∧ orEmpty layout.boxShadow ≠ "none") →
      getKey (applyElementStyles w layout).settings "_box_shadow_box_shadow_type" =
        getKey w.settings "_box_shadow_box_shadow_type" ∧
      getKey (applyElementStyles w layout).settings "_box_shadow_box_shadow" =
        getKey w.settings "_box_shadow_box_shadow") ∧
    (truthy layout.textAlign = false →
      getKey (applyElementStyles w layout).settings "align" =
        getKey w.settings "align") ∧
    (truthy layout.width = false →
      getKey (applyElementStyles w layout).settings "width" =
        getKey w.settings "width") ∧
    (truthy layout.height = false →
      getKey (applyElementStyles w layout).settings "height" =
        getKey w.settings "height") ∧
    (∀ k : String, k ∉ styledKeys →
      getKey (applyElementStyles w layout).settings k = getKey w.settings k) ∧
    (getKey (buildWidget [] (.mk "h1" "" {} {} "Hello" "" "" []) 0).1.settings
        "align" = some (.s "left") ∧
     getKey (buildWidget [] (.mk "h1" "" {} {} "Hello" "" "" []) 0).1.settings
        "typography_typography" = some (.s "custom")) := by
  refine ⟨?_, ?_, ?_, ?_, ?_, ?_, ?_, ?_, ?_, ?_, ?_, ?_, ?_, ?_, ?_, ?_,
    ⟨rfl, rfl⟩⟩
  · intro h1 h2 h3 h4
    rw [applyElementStyles_settings]
    simp [styleTypography, styleColors, styleSpacing, styleBorders,
      styleShadow, styleAlign, styleSize, ensureCustomTypography,
      h1, h2, h3, h4,
      apply_ite (fun s : Settings => getKey s "typography_typography"),
      getKey_setKey_ne, ite_self]
  · intro h1
    rw [applyElementStyles_settings]
    simp [styleTypography, styleColors, styleSpacing, styleBorders,
      styleShadow, styleAlign, styleSize, ensureCustomTypography, h1,
      apply_ite (fun s : Settings => getKey s "typography_font_family"),
      getKey_setKey_ne, ite_self]
  · intro h1
    rw [applyElementStyles_settings]
    simp [styleTypography, styleColors, styleSpacing, styleBorders,
      styleShadow, styleAlign, styleSize, ensureCustomTypography, h1,
      apply_ite (fun s : Settings => getKey s "typography_font_size"),
      getKey_setKey_ne, ite_self]
  · intro h1
    rw [applyElementStyles_settings]
    simp [styleTypography, styleColors, styleSpacing, styleBorders,
      styleShadow, styleAlign, styleSize, ensureCustomTypography, h1,
      apply_ite (fun s : Settings => getKey s "typography_font_weight"),
      getKey_setKey_ne, ite_self]
  · intro h1
    rw [applyElementStyles_settings]
    simp [styleTypography, styleColors, styleSpacing, styleBorders,
      styleShadow, styleAlign, styleSize, ensureCustomTypography, h1,
      apply_ite (fun s : Settings => getKey s "typography_line_height"),
      getKey_setKey_ne, ite_self]
  · intro h1
    refine ⟨?_, ?_, ?_⟩ <;>
    · rw [applyElementStyles_settings]
      simp [styleTypography, styleColors, styleSpacing, styleBorders,
        styleShadow, styleAlign, styleSize, ensureCustomTypography, h1,
        apply_ite (fun s : Settings => getKey s "title_color"),
        apply_ite (fun s : Settings => getKey s "text_color"),
        apply_ite (fun s : Settings => getKey s "button_text_color"),
        getKey_setKey_ne, ite_self]
  · intro h1
    refine ⟨?_, ?_, ?_⟩ <;>
    · rw [applyElementStyles_settings]
      simp [styleTypography, styleColors, styleSpacing, styleBorders,
        styleShadow, styleAlign, styleSize, ensureCustomTypography, h1,
        apply_ite (fun s : Settings => getKey s "button_background_color"),
        apply_ite (fun s : Settings => getKey s "_background_background"),
        apply_ite (fun s : Settings => getKey s "_background_color"),
        getKey_setKey_ne, ite_self]
  · intro h1
    rw [applyElementStyles_settings]
    simp [styleTypography, styleColors, styleSpacing, styleBorders,
      styleShadow, styleAlign, styleSize, ensureCustomTypography, h1,
      apply_ite (fun s : Settings => getKey s "_margin"),
      getKey_setKey_ne, ite_self]
  · intro h1
    rw [applyElementStyles_settings]
    simp [styleTypography, styleColors, styleSpacing, styleBorders,
      styleShadow, styleAlign, styleSize, ensureCustomTypography, h1,
      apply_ite (fun s : Settings => getKey s "_padding"),
      getKey_setKey_ne, ite_self]
  · intro h1
    refine ⟨?_, ?_, ?_⟩ <;>
    · rw [applyElementStyles_settings]
      simp [styleTypography, styleColors, styleSpacing, styleBorders,
        styleShadow, styleAlign, styleSize, ensureCustomTypography, h1,
        apply_ite (fun s : Settings => getKey s "_border_border"),
        apply_ite (fun s : Settings => getKey s "_border_width"),
        apply_ite (fun s : Settings => getKey s "_border_color"),
        getKey_setKey_ne, ite_self]
  · intro h1
    rw [applyElementStyles_settings]
    simp [styleTypography, styleColors, styleSpacing, styleBorders,
      styleShadow, styleAlign, styleSize, ensureCustomTypography, h1,
      apply_ite (fun s : Settings => getKey s "_border_radius"),
      getKey_setKey_ne, ite_self]
  · intro h1
    refine ⟨?_, ?_⟩ <;>
    · rw [applyElementStyles_settings]
      simp [styleTypography, styleColors, styleSpacing, styleBorders,
        styleShadow, styleAlign, styleSize, ensureCustomTypography, h1,
        apply_ite (fun s : Settings => getKey s "_box_shadow_box_shadow_type"),
        apply_ite (fun s : Settings => getKey s "_box_shadow_box_shadow"),
        getKey_setKey_ne, ite_self]
  · intro h1
    rw [applyElementStyles_settings]
    simp [styleTypography, styleColors, styleSpacing, styleBorders,
      styleShadow, styleAlign, styleSize, ensureCustomTypography, h1,
      apply_ite (fun s : Settings => getKey s "align"),
      getKey_setKey_ne, ite_self]
  · intro h1
    rw [applyElementStyles_settings]
    simp [styleTypography, styleColors, styleSpacing, styleBorders,
      styleShadow, styleAlign, styleSize, ensureCustomTypography, h1,
      apply_ite (fun s : Settings => getKey s "width"),
      getKey_setKey_ne, ite_self]
  · intro h1
    rw [applyElementStyles_settings]
    simp [styleTypography, styleColors, styleSpacing, styleBorders,
      styleShadow, styleAlign, styleSize, ensureCustomTypography, h1,
      apply_ite (fun s : Settings => getKey s "height"),
      getKey_setKey_ne, ite_self]
  · intro k hk
    simp only [styledKeys, List.mem_cons, List.not_mem_nil, or_false] at hk
    push_neg at hk
    obtain ⟨n1, n2, n3, n4, n5, n6, n7, n8, n9, n10, n11, n12, n13, n14,
      n15, n16, n17, n18, n19, n20, n21, n22⟩ := hk
    rw [applyElementStyles_settings]
    simp [styleTypography, styleColors, styleSpacing, styleBorders,
      styleShadow, styleAlign, styleSize, ensureCustomTypography,
      apply_ite (fun s : Settings => getKey s k),
      getKey_setKey_ne, ite_self,
      Ne.symm n1, Ne.symm n2, Ne.symm n3, Ne.symm n4, Ne.symm n5,
      Ne.symm n6, Ne.symm n7, Ne.symm n8, Ne.symm n9, Ne.symm n10,
      Ne.symm n11, Ne.symm n12, Ne.symm n13, Ne.symm n14, Ne.symm n15,
      Ne.symm n16, Ne.symm n17, Ne.symm n18, Ne.symm n19, Ne.symm n20,
      Ne.symm n21, Ne.symm n22]

/-- The C9 counterexample element: an `h1` with a fully absent layout. -/
def c9H1 : Elem := .mk "h1" "" {} {} "Hello" "" "" []

/-- C9 counterexample: `buildWidget` on a heading whose layout has no
`textAlign` and no typography fields still emits `align: "left"` and
`typography_typography: "custom"` — absent style fields do get guessed
default values in the widget settings, contrary to the claim. -/
theorem claim_C9_cex :
    c9H1.layout.textAlign = none ∧
    c9H1.layout.fontFamily = none ∧
    c9H1.layout.fontSize = none ∧
    c9H1.layout.fontWeight = none ∧
    c9H1.layout.lineHeight = none ∧
    getKey (buildWidget [] c9H1 0).1.settings "align" = some (.s "left") ∧
    getKey (buildWidget [] c9H1 0).1.settings "typography_typography" =
      some (.s "custom") :=
  ⟨rfl, rfl, rfl, rfl, rfl, rfl, rfl⟩

/-- A concrete widget for the C9 witness. -/
def c9W : ENode :=
  .mk 7 "widget" (some "heading") [("existing", .s "kept")] []

theorem claim_C9_w :
    truthy (Layout.fontSize {}) = false ∧
    getKey (applyElementStyles c9W {}).settings "typography_font_size" =
      getKey c9W.settings "typography_font_size" :=
  ⟨rfl, (claim_C9 {} c9W).2.2.1 rfl⟩

end CMPRO
